import Mathlib

/-!
Shallow embedding of the docket reconciliation engine of
`cl/recap/mergers.py` (CourtListener RECAP mergers), together with proofs
about the claims of the natural-language specification.

The relational store (Django ORM) is modelled as explicit lists of rows;
each row carries its primary key.  Stateful functions become pure
functions from a store to a store plus a result; fallible paths return
`Except`.  Python string truthiness (empty string and `None` are falsy) is
modelled explicitly.
-/

namespace Mergers

/-- Python truthiness of an optional string: `None` and the empty string
are falsy. -/
def optStrTruthy : Option String → Bool
  | none => false
  | some s => s ≠ ""

/-- Python `%03d` formatting: pad a natural number with leading zeros to at
least three digits. -/
def pad3 (n : Nat) : String :=
  if n < 10 then "00" ++ toString n
  else if n < 100 then "0" ++ toString n
  else toString n

/-! ## Case names (`update_case_names`, mergers.py lines 337-373) -/

/-- The placeholder title PACER uses for unnamed cases. -/
def uct : String := "Unknown Case Title"

/-- Docket row of `cl.search.models.Docket`, restricted to the fields the
merger code under verification reads or writes.  `pk = none` models an
unsaved row. -/
structure Docket where
  pk : Option Nat
  court_id : String
  pacer_case_id : Option String
  docket_number : String
  docket_number_core : String
  case_name : String
  case_name_short : String
  date_created : Nat
  date_last_filing : Option Nat
  federal_defendant_number : Option String
  federal_dn_judge_initials_assigned : Option String
  federal_dn_judge_initials_referred : Option String
  deriving DecidableEq, Repr

/-- Embedding of `update_case_names` (mergers.py lines 337-373).  The case
name shortener `cnt.make_case_name_short` comes from the external
juriscraper library; per the spec (section 9) it is a stateless pure
function, abstracted here as the parameter `shorten`. -/
def update_case_names (shorten : String → String) (d : Docket)
    (new_case_name : String) : Docket :=
  if new_case_name = "" then d
  else if new_case_name = uct ∧ d.case_name ≠ "" then d
  else { d with case_name := new_case_name,
                case_name_short := shorten new_case_name }

/-- Three-valued classification of a case name used by the spec's 3x3
decision table (spec section 4.3). -/
inductive NameKind
  | real
  | placeholder
  | blank
  deriving DecidableEq, Repr

/-- Classify a case name as a real name, the placeholder title, or blank. -/
def classifyName (s : String) : NameKind :=
  if s = "" then .blank
  else if s = uct then .placeholder
  else .real

/-- The 3x3 decision table of spec section 4.3, as a predicate stating
whether the incoming name overwrites the existing one: an incoming real
name always wins; an incoming placeholder wins only over an existing
blank; an incoming blank never overwrites. -/
def tableWins (existing incoming : NameKind) : Bool :=
  match incoming with
  | .real => true
  | .placeholder => existing == .blank
  | .blank => false

/-! ## Docket locator (`find_docket_object`, mergers.py lines 123-254) -/

/-- Modelled from the spec: `make_docket_number_core`
(`cl.lib.model_helpers`, not under `src/`) produces "a normalized form of
the human-readable case number used for fuzzy matching across feeds that
format it differently" (spec glossary).  We model it as keeping only the
digits of the docket number, which identifies numbers that differ only in
punctuation or formatting. -/
def make_docket_number_core (s : String) : String :=
  String.mk (s.toList.filter Char.isDigit)

/-- Modelled from the spec: `clean_docket_number`
(`cl.lib.model_helpers`, not under `src/`) extracts a cleaned docket
number from a raw docket number string; on inputs that are already bare
docket numbers it acts as the identity, which is how we model it. -/
def clean_docket_number (s : String) : String := s

/-- One docket-number component comparison of
`confirm_docket_number_core_lookup_match` (mergers.py lines 109-119): the
match is rejected only when both the incoming and the stored component are
truthy and differ. -/
def dnComponentConflict (incoming stored : Option String) : Bool :=
  optStrTruthy incoming && optStrTruthy stored && incoming != stored

/-- Embedding of `confirm_docket_number_core_lookup_match` (mergers.py
lines 76-120): re-validate a docket matched through its
docket-number-core against the raw incoming docket number and the
disambiguating docket-number components. -/
def confirm_docket_number_core_lookup_match (clean : String → String)
    (d : Docket) (docket_number : String)
    (federal_defendant_number : Option String)
    (federal_dn_judge_initials_assigned : Option String)
    (federal_dn_judge_initials_referred : Option String) : Option Docket :=
  if clean d.docket_number ≠ clean docket_number then none
  else if dnComponentConflict federal_defendant_number
      d.federal_defendant_number then none
  else if dnComponentConflict federal_dn_judge_initials_assigned
      d.federal_dn_judge_initials_assigned then none
  else if dnComponentConflict federal_dn_judge_initials_referred
      d.federal_dn_judge_initials_referred then none
  else some d

/-- One entry of the `lookups` list built by `find_docket_object`
(mergers.py lines 151-193): the Django filter kwargs of one lookup tier. -/
inductive LookupKw
  | byCaseIdAndCore (cid : String) (core : String)
  | byNullCaseIdAndCore (core : String)
  | byCaseId (cid : String)
  | byCore (core : String)
  | byNullCaseIdAndNumber (number : String)
  deriving DecidableEq, Repr

/-- Whether a stored docket matches one lookup tier's kwargs (together
with the court filter of mergers.py line 196). -/
def kwMatches (court_id : String) (kw : LookupKw) (d : Docket) : Bool :=
  d.court_id == court_id &&
  match kw with
  | .byCaseIdAndCore cid core =>
      d.pacer_case_id == some cid && d.docket_number_core == core
  | .byNullCaseIdAndCore core =>
      d.pacer_case_id == none && d.docket_number_core == core
  | .byCaseId cid => d.pacer_case_id == some cid
  | .byCore core => d.docket_number_core == core
  | .byNullCaseIdAndNumber number =>
      d.pacer_case_id == none && d.docket_number == number

/-- Python `kwargs.get("pacer_case_id") is None`: true when the kwargs
bind `pacer_case_id` to `None` or do not mention it at all. -/
def kwCaseIdIsNone : LookupKw → Bool
  | .byCaseIdAndCore _ _ => false
  | .byNullCaseIdAndCore _ => true
  | .byCaseId _ => false
  | .byCore _ => true
  | .byNullCaseIdAndNumber _ => true

/-- Python `kwargs.get("docket_number_core")` truthiness: true when the
kwargs carry a docket-number-core value (cores are only put in the kwargs
when non-blank, see mergers.py lines 155-186). -/
def kwHasCore : LookupKw → Bool
  | .byCaseIdAndCore _ _ => true
  | .byNullCaseIdAndCore _ => true
  | .byCaseId _ => false
  | .byCore _ => true
  | .byNullCaseIdAndNumber _ => false

/-- The `lookups` list of `find_docket_object` (mergers.py lines
151-193), from most to least specific tier. -/
def docketLookups (pacer_case_id : Option String)
    (docket_number : String) (core : String) : List LookupKw :=
  if h : optStrTruthy pacer_case_id then
    (match pacer_case_id, h with
     | some cid, _ =>
        (if core ≠ "" then
          [LookupKw.byCaseIdAndCore cid core,
           LookupKw.byNullCaseIdAndCore core]
         else []) ++ [LookupKw.byCaseId cid])
  else
    if core ≠ "" then
      [LookupKw.byNullCaseIdAndCore core, LookupKw.byCore core]
    else if docket_number ≠ "" then
      [LookupKw.byNullCaseIdAndNumber docket_number]
    else []

/-- Django `queryset.earliest("date_created")` on a non-empty result set:
the first row (in store order) carrying the minimal creation date. -/
def earliestCreated (d0 : Docket) (ds : List Docket) : Docket :=
  ds.foldl (fun b d => if d.date_created < b.date_created then d else b) d0

/-- Whether a stored docket matches the truthy docket-number components,
modelling the `dn_lookup` narrowing filter of `find_docket_object`
(mergers.py lines 217-227). -/
def dnNarrowMatches (fdn fja fjr : Option String) (d : Docket) : Bool :=
  (if optStrTruthy fdn then d.federal_defendant_number == fdn else true) &&
  (if optStrTruthy fja then
      d.federal_dn_judge_initials_assigned == fja else true) &&
  (if optStrTruthy fjr then
      d.federal_dn_judge_initials_referred == fjr else true)

/-- The tier loop of `find_docket_object` (mergers.py lines 195-241): try
each lookup tier in turn, returning the first usable match. -/
def findViaLookups (clean : String → String) (store : List Docket)
    (court_id : String) (docket_number : String)
    (fdn fja fjr : Option String) : List LookupKw → Option Docket
  | [] => none
  | kw :: rest =>
    let ds := store.filter (kwMatches court_id kw)
    match ds with
    | [] => findViaLookups clean store court_id docket_number fdn fja fjr rest
    | [d] =>
      let d' :=
        if kwCaseIdIsNone kw && kwHasCore kw then
          confirm_docket_number_core_lookup_match clean d docket_number
            fdn fja fjr
        else some d
      match d' with
      | some x => some x
      | none =>
        findViaLookups clean store court_id docket_number fdn fja fjr rest
    | d1 :: d2 :: drest =>
      let narrowed := (d1 :: d2 :: drest).filter (dnNarrowMatches fdn fja fjr)
      match narrowed with
      | [x] => some x
      | _ =>
        let e := earliestCreated d1 (d2 :: drest)
        let d' :=
          if kwCaseIdIsNone kw && kwHasCore kw then
            confirm_docket_number_core_lookup_match clean e docket_number
              none none none
          else some e
        match d' with
        | some x => some x
        | none =>
          findViaLookups clean store court_id docket_number fdn fja fjr rest

/-- A fresh, unsaved docket as constructed by `find_docket_object` when no
tier matches (mergers.py lines 242-248). -/
def newDocket (court_id : String) (pacer_case_id : Option String) : Docket :=
  { pk := none
    court_id := court_id
    pacer_case_id := pacer_case_id
    docket_number := ""
    docket_number_core := ""
    case_name := ""
    case_name_short := ""
    date_created := 0
    date_last_filing := none
    federal_defendant_number := none
    federal_dn_judge_initials_assigned := none
    federal_dn_judge_initials_referred := none }

/-- Embedding of `find_docket_object` (mergers.py lines 123-254): tiered
lookup of decreasing specificity over the docket store, creating a new
unsaved docket when every tier fails.  The external docket-number
normalizers are passed as the parameters `clean` and `core_of`. -/
def find_docket_object (clean core_of : String → String)
    (store : List Docket) (court_id : String)
    (pacer_case_id : Option String) (docket_number : String)
    (fdn fja fjr : Option String) : Docket :=
  let core := core_of docket_number
  match findViaLookups clean store court_id docket_number fdn fja fjr
      (docketLookups pacer_case_id docket_number core) with
  | some d => d
  | none => newDocket court_id pacer_case_id

/-- A call of `find_docket_object` against a store: the function performs
no writes (mergers.py lines 123-254 contain no save or delete), so the
call returns the looked-up docket together with the unchanged store. -/
def find_docket_object_call (clean core_of : String → String)
    (store : List Docket) (court_id : String)
    (pacer_case_id : Option String) (docket_number : String)
    (fdn fja fjr : Option String) : Docket × List Docket :=
  (find_docket_object clean core_of store court_id pacer_case_id
      docket_number fdn fja fjr, store)

/-! ## Sequence numbers (`get_order_of_docket`,
`calculate_recap_sequence_numbers`, mergers.py lines 544-645) -/

/-- A scraped docket-entry dict as produced by the parser, restricted to
the fields the code under verification reads.  Dates are modelled as day
ordinals (`Nat`); a missing date or entry number is `none`. -/
structure EntryDict where
  document_number : Option String
  pacer_seq_no : Option Int
  date_filed : Option Nat
  description : String
  short_description : Option String
  deriving DecidableEq, Repr

/-- Python `int(x)` on an entry-number value: `None` or an unparseable
string raise (modelled as `none`). -/
def parseEntryNum : Option String → Option Int
  | none => none
  | some s => s.toInt?

/-- Ascending or descending feed order. -/
inductive DocketOrder
  | asc
  | desc
  deriving DecidableEq, Repr

/-- Embedding of `get_order_of_docket` (mergers.py lines 544-566): scan
adjacent pairs for the first pair of comparable, unequal entry numbers;
`none` when no such pair exists. -/
def get_order_of_docket : List EntryDict → Option DocketOrder
  | a :: b :: rest =>
    (match parseEntryNum a.document_number, parseEntryNum b.document_number with
     | some x, some y =>
        if x = y then get_order_of_docket (b :: rest)
        else if x < y then some .asc
        else some .desc
     | _, _ => get_order_of_docket (b :: rest))
  | _ => none

/-- Modelled from the spec: `localize_date_and_time`
(`cl.lib.timezone_helpers`, not under `src/`) normalizes a filed
date/time to the court's timezone (spec section 4.2).  On date-only
values, as in the claims, the date passes through unchanged and no time
component is produced, which is how we model it. -/
def localize_date_and_time (court_id : String) (d : Option Nat) :
    Option Nat × Option Nat :=
  let _ := court_id
  (d, none)

/-- ISO rendering of a modelled date; only applied to present dates. -/
def isoDate : Option Nat → String
  | some n => toString n
  | none => ""

/-- Embedding of `make_recap_sequence_number` (mergers.py lines 569-583):
the template is the ISO date, a dot, and the 3-digit-padded index. -/
def make_recap_sequence_number (date_filed : Option Nat)
    (recap_sequence_index : Nat) : String :=
  isoDate date_filed ++ "." ++ pad3 recap_sequence_index

/-- The assignment walk of `calculate_recap_sequence_numbers` (mergers.py
lines 618-642): index 1 for the first entry of each distinct localized
filed date, incremented while the date repeats.  `prev` carries the
previous entry's localized date, `prevIdx` its sequence index. -/
def assignSeqNumbers (court_id : String) (prev : Option (Option Nat))
    (prevIdx : Nat) : List EntryDict → List String
  | [] => []
  | de :: rest =>
    let cur := (localize_date_and_time court_id de.date_filed).1
    let idx :=
      match prev with
      | some p => if cur = p then prevIdx + 1 else 1
      | none => 1
    make_recap_sequence_number cur idx ::
      assignSeqNumbers court_id (some cur) idx rest

/-- Embedding of `calculate_recap_sequence_numbers` (mergers.py lines
586-645): normalize a descending feed by reversing it, then annotate each
entry with its sequence number (the scratch index is dropped, as in the
cleanup at line 645). -/
def calculate_recap_sequence_numbers (docket_entries : List EntryDict)
    (court_id : String) : List (EntryDict × String) :=
  let des :=
    if get_order_of_docket docket_entries = some .desc then
      docket_entries.reverse
    else docket_entries
  des.zip (assignSeqNumbers court_id none 0 des)

/-! ## The relational store for entries and documents -/

/-- Document kind of `cl.search.models.RECAPDocument`: a main filing or an
attachment. -/
inductive DocumentType
  | pacerDocument
  | attachment
  deriving DecidableEq, Repr

/-- RECAPDocument row, restricted to the fields the merger code reads or
writes.  `date_created` orders rows for the newest/oldest tie-breaks. -/
structure RECAPDocument where
  pk : Nat
  docket_entry : Nat
  document_type : DocumentType
  attachment_number : Option Int
  pacer_doc_id : String
  document_number : String
  description : String
  page_count : Option Nat
  file_size : Option Nat
  is_available : Bool
  filepath_local : String
  acms_document_guid : String
  date_created : Nat
  deriving DecidableEq, Repr

/-- DocketEntry row, restricted to the fields the merger code reads or
writes. -/
structure DocketEntryRow where
  pk : Nat
  docket : Nat
  entry_number : Option String
  pacer_sequence_number : Option Int
  date_filed : Option Nat
  time_filed : Option Nat
  description : String
  recap_sequence_number : String
  date_created : Nat
  deriving DecidableEq, Repr

/-- The canonical relational store: dockets, docket entries and documents,
with a fresh-primary-key counter.  New rows take `nextPk` as both primary
key and creation stamp (primary keys and creation dates are equally
monotone in insertion order). -/
structure Store where
  dockets : List Docket
  entries : List DocketEntryRow
  rds : List RECAPDocument
  nextPk : Nat
  deriving DecidableEq, Repr

/-- Update an existing document row in place (Django `save` on a row whose
primary key exists). -/
def updateRd (s : Store) (r : RECAPDocument) : Store :=
  { s with rds := s.rds.map (fun x => if x.pk == r.pk then r else x) }

/-- Insert a new document row (Django `save`/`create` on a fresh row).
The row must carry `pk = s.nextPk`. -/
def insertRd (s : Store) (r : RECAPDocument) : Store :=
  { s with rds := s.rds ++ [r], nextPk := s.nextPk + 1 }

/-- Look a document row up by primary key. -/
def getRd (s : Store) (pk : Nat) : Option RECAPDocument :=
  s.rds.find? (fun r => r.pk == pk)

/-- Store well-formedness: row primary keys are distinct and below the
fresh counter. -/
def StoreWF (s : Store) : Prop :=
  (s.rds.map RECAPDocument.pk).Nodup ∧
  (s.entries.map DocketEntryRow.pk).Nodup ∧
  (∀ r ∈ s.rds, r.pk < s.nextPk) ∧
  (∀ e ∈ s.entries, e.pk < s.nextPk)

/-- Whether a document row lives under the given court (and, when one is
supplied, the given PACER case id), following the
`docket_entry__docket__court` / `docket_entry__docket__pacer_case_id`
filter params of `merge_attachment_page_data` (mergers.py lines
1700-1705). -/
def rdInCaseScope (s : Store) (court_id : String)
    (pacer_case_id : Option String) (r : RECAPDocument) : Bool :=
  match s.entries.find? (fun e => e.pk == r.docket_entry) with
  | none => false
  | some e =>
    match s.dockets.find? (fun d => d.pk == some e.docket) with
    | none => false
    | some dk =>
      dk.court_id == court_id &&
      (if optStrTruthy pacer_case_id then dk.pacer_case_id == pacer_case_id
       else true)

/-- The main-document lookup queryset of `merge_attachment_page_data`: all
documents with the given PACER document id in the case scope. -/
def mainRdFilter (s : Store) (court_id : String)
    (pacer_case_id : Option String) (doc_id : String) :
    List RECAPDocument :=
  s.rds.filter (fun r =>
    r.pacer_doc_id == doc_id && rdInCaseScope s court_id pacer_case_id r)

/-- Django `queryset.latest("date_created")` on a non-empty list: the
first row (in store order) carrying the maximal creation date. -/
def latestCreated : List RECAPDocument → Option RECAPDocument
  | [] => none
  | r :: rest =>
    some (rest.foldl
      (fun b x => if b.date_created < x.date_created then x else b) r)

/-- Embedding of `keep_latest_rd_document` (mergers.py lines 839-854):
keep the most recent row with an available local PDF if any, otherwise
the most recent row overall, and delete the other rows of the queryset.
`none` when the queryset is empty (the code would raise there). -/
def keep_latest_rd_document (s : Store) (qs : List RECAPDocument) :
    Option (Store × RECAPDocument) :=
  let withPdf := qs.filter (fun r => r.is_available && r.filepath_local != "")
  let chosen :=
    match latestCreated withPdf with
    | some r => some r
    | none => latestCreated qs
  match chosen with
  | none => none
  | some rd =>
    some ({ s with rds := s.rds.filter (fun r =>
              !((qs.map RECAPDocument.pk).contains r.pk) || r.pk == rd.pk) },
          rd)

/-! ## Attachment page merger (`merge_attachment_page_data`, mergers.py
lines 1672-1972) -/

/-- A parsed attachment dict.  `page_count = none` models a dict without
the key; `page_count = some none` models the key present with value
`None`.  For the other optional keys an absent key and a `None` value
behave alike in the code, so both are modelled as `none`. -/
structure AttachmentDict where
  attachment_number : Option Int
  pacer_doc_id : Option String
  description : String
  page_count : Option (Option Nat)
  file_size_bytes : Option Nat
  file_size_str : Option String
  acms_document_guid : Option String
  deriving DecidableEq, Repr

/-- The errors `merge_attachment_page_data` can propagate while resolving
the main document: Django's MultipleObjectsReturned and DoesNotExist, and
the crash on a `None` main document in the ACMS branch (the `afirst` call
of mergers.py line 1717 returns `None` on an empty queryset and line 1801
then raises). -/
inductive MergeErr
  | multipleObjectsReturned
  | doesNotExist
  | noneMainRd
  deriving DecidableEq, Repr

/-- Result of resolving the entry's main document: the store (duplicate
cleanup and the legacy-feed migration may have written to it), the
resolved main document row, and the rows created during resolution. -/
structure ResolveOut where
  store : Store
  main_rd : RECAPDocument
  createdPks : List Nat
  deriving Repr

/-- Python `attachment.get("attachment_number", 0)` (mergers.py lines
1750, 1765). -/
def attNumOr0 : Option Int → Int
  | none => 0
  | some n => n

/-- The found-a-legacy-main-document path of the fallback loop (mergers.py
lines 1750-1758 and 1787-1797): promote the found row to an attachment
when the attachment entry carries a non-zero index, then create a fresh
main document carrying the original PACER document id and the migrated
description. -/
def fallbackFound (s : Store) (orig_doc_id : String) (r : RECAPDocument)
    (a : AttachmentDict) : ResolveOut :=
  let (s1, main, migrated) :=
    if attNumOr0 a.attachment_number ≠ 0 then
      let r' := { r with attachment_number := a.attachment_number,
                         document_type := DocumentType.attachment }
      (updateRd s r', r', r.description)
    else (s, r, "")
  let fresh : RECAPDocument :=
    { pk := s1.nextPk
      docket_entry := main.docket_entry
      document_type := DocumentType.pacerDocument
      attachment_number := none
      pacer_doc_id := orig_doc_id
      document_number := main.document_number
      description := migrated
      page_count := none
      file_size := none
      is_available := false
      filepath_local := ""
      acms_document_guid := ""
      date_created := s1.nextPk }
  { store := insertRd s1 fresh, main_rd := main, createdPks := [fresh.pk] }

/-- The fallback loop of `merge_attachment_page_data` (mergers.py lines
1739-1786): when no document matches the PACER document id directly, walk
the incoming attachment list, re-keying the lookup params with each
attachment's document id (the previous id stays in the params when an
attachment lacks one), until a lookup succeeds; raise the original
DoesNotExist when none does. -/
def resolveFallback (s : Store) (court_id : String)
    (pacer_case_id : Option String) (orig_doc_id : String) :
    List AttachmentDict → String → Except MergeErr ResolveOut
  | [], _ => .error .doesNotExist
  | a :: rest, cur =>
    let cur' := if optStrTruthy a.pacer_doc_id then a.pacer_doc_id.getD cur
                else cur
    match mainRdFilter s court_id pacer_case_id cur' with
    | [] => resolveFallback s court_id pacer_case_id orig_doc_id rest cur'
    | [r] => .ok (fallbackFound s orig_doc_id r a)
    | _ :: _ :: _ =>
      if optStrTruthy pacer_case_id then
        match keep_latest_rd_document s
            (mainRdFilter s court_id pacer_case_id cur') with
        | none => .error .doesNotExist
        | some (s', _) =>
          match mainRdFilter s' court_id pacer_case_id cur' with
          | [r] => .ok (fallbackFound s' orig_doc_id r a)
          | [] => .error .doesNotExist
          | _ :: _ :: _ => .error .multipleObjectsReturned
      else .error .multipleObjectsReturned

/-- Resolution of the entry's main document (mergers.py lines 1697-1797):
a direct lookup by PACER document id, de-duplicated via the external case
id when ambiguous, falling back to the incoming attachment list when
nothing matches; failure to resolve propagates. -/
def resolve_main_rd (s : Store) (court_id : String)
    (pacer_case_id : Option String) (pacer_doc_id : String)
    (atts : List AttachmentDict) (is_acms : Bool) :
    Except MergeErr ResolveOut :=
  let qs := mainRdFilter s court_id pacer_case_id pacer_doc_id
  if is_acms then
    match qs with
    | r :: _ => .ok { store := s, main_rd := r, createdPks := [] }
    | [] => .error .noneMainRd
  else
    match qs with
    | [r] => .ok { store := s, main_rd := r, createdPks := [] }
    | [] => resolveFallback s court_id pacer_case_id pacer_doc_id atts
        pacer_doc_id
    | _ :: _ :: _ =>
      if optStrTruthy pacer_case_id then
        match keep_latest_rd_document s qs with
        | none => .error .doesNotExist
        | some (s', _) =>
          match mainRdFilter s' court_id pacer_case_id pacer_doc_id with
          | [r] => .ok { store := s', main_rd := r, createdPks := [] }
          | [] => .error .doesNotExist
          | _ :: _ :: _ => .error .multipleObjectsReturned
      else .error .multipleObjectsReturned

/-- The first skip of the attachment loop (the `sanity_checks` of
mergers.py lines 1829-1835): skip when the attachment index is missing or
the PACER document id is missing or blank. -/
def attSanityFails (a : AttachmentDict) : Bool :=
  !(a.attachment_number.isSome && optStrTruthy a.pacer_doc_id)

/-- The second skip of the attachment loop (mergers.py lines 1837-1844):
skip when the `page_count` key is present with value `None` and the
attachment index is not 0. -/
def attPageCountSkip (a : AttachmentDict) : Bool :=
  a.page_count == some (none : Option Nat) && a.attachment_number != some 0

/-- Python truthiness of `attachment.get("page_count", None)`: present,
non-`None` and non-zero. -/
def attPageCountTruthy (a : AttachmentDict) : Bool :=
  match a.page_count with
  | some (some n) => n ≠ 0
  | _ => false

/-- State threaded through the attachment loop of
`merge_attachment_page_data`: the store, the primary key of the (possibly
reclassified) main document, the `main_rd_to_att` flag, and the affected
and created rows (by primary key, in order). -/
structure AttLoopState where
  store : Store
  mainPk : Nat
  main_rd_to_att : Bool
  affectedPks : List Nat
  createdPks : List Nat
  deriving Repr

/-- The per-row field updates at the tail of the attachment loop
(mergers.py lines 1932-1963): description (attachments only), PACER
document id, the long-appellate document-number substitution, page count
and file size only when not already known. -/
def attFieldUpdates (isLong : String → Bool)
    (convertSize : String → Option Nat) (court_is_appellate : Bool)
    (orig_doc_id : String) (document_number : String)
    (a : AttachmentDict) (rd0 : RECAPDocument) : RECAPDocument :=
  let rd1 :=
    if a.description != "" && rd0.document_type == DocumentType.attachment
    then { rd0 with description := a.description } else rd0
  let rd2 :=
    if optStrTruthy a.pacer_doc_id then
      { rd1 with pacer_doc_id := a.pacer_doc_id.getD "" }
    else rd1
  let rd3 :=
    if court_is_appellate && isLong document_number then
      { rd2 with document_number := orig_doc_id }
    else rd2
  let rd4 :=
    if rd3.page_count == none && attPageCountTruthy a then
      { rd3 with page_count := a.page_count.join }
    else rd3
  match a.file_size_bytes with
  | some n => { rd4 with file_size := some n }
  | none =>
    if rd4.file_size == none && optStrTruthy a.file_size_str then
      match convertSize (a.file_size_str.getD "") with
      | some v => { rd4 with file_size := some v }
      | none => rd4
    else rd4

/-- The field updates and save at the tail of the attachment loop
(mergers.py lines 1932-1964). -/
def attCommonUpdates (isLong : String → Bool)
    (convertSize : String → Option Nat) (court_is_appellate : Bool)
    (orig_doc_id : String) (document_number : String) (st : AttLoopState)
    (a : AttachmentDict) (rd0 : RECAPDocument) (isNew : Bool) :
    AttLoopState :=
  let rd5 := attFieldUpdates isLong convertSize court_is_appellate
    orig_doc_id document_number a rd0
  let s' := if isNew then insertRd st.store rd5 else updateRd st.store rd5
  { st with store := s'
            affectedPks := st.affectedPks ++ [rd5.pk]
            createdPks :=
              st.createdPks ++ (if isNew then [rd5.pk] else []) }

/-- The lookup params of the non-promotion branch (mergers.py lines
1862-1872): entry, document number, and kind (main for index 0, else
attachment with that index), plus the ACMS document GUID when the
attachment carries one. -/
def attParamsMatch (dePk : Nat) (document_number : String)
    (a : AttachmentDict) (r : RECAPDocument) : Bool :=
  r.docket_entry == dePk && r.document_number == document_number &&
  (if a.attachment_number == some 0 then
    r.document_type == DocumentType.pacerDocument
  else
    r.document_type == DocumentType.attachment &&
    r.attachment_number == a.attachment_number) &&
  (match a.acms_document_guid with
   | some g => r.acms_document_guid == g
   | none => true)

/-- The fallback lookup params keyed by the attachment's PACER document id
(mergers.py lines 1876-1891): the attachment number and document kind are
dropped, and for appellate courts with long document numbers the document
number is dropped too. -/
def attDocIdParamsMatch (isLong : String → Bool) (court_is_appellate : Bool)
    (dePk : Nat) (document_number : String) (a : AttachmentDict)
    (r : RECAPDocument) : Bool :=
  r.docket_entry == dePk &&
  (if court_is_appellate && isLong document_number then true
   else r.document_number == document_number) &&
  r.pacer_doc_id == a.pacer_doc_id.getD "" &&
  (match a.acms_document_guid with
   | some g => r.acms_document_guid == g
   | none => true)

/-- The description migrated onto a row adopted or created as the entry's
main document (index 0, mergers.py lines 1892-1907 and 1915-1929): the
description of the entry's current unique main document, blank when there
is none or more than one. -/
def migratedMainDescription (s : Store) (dePk : Nat) : String :=
  match s.rds.filter (fun x =>
      x.docket_entry == dePk &&
      x.document_type == DocumentType.pacerDocument) with
  | [o] => o.description
  | _ => ""

/-- The in-place reclassification of the appellate main document to an
attachment (mergers.py lines 1850-1860): same row, document type switched
to attachment, the attachment's index adopted, and the ACMS GUID taken
from the attachment when it carries one. -/
def promotedRd (a : AttachmentDict) (m : RECAPDocument) : RECAPDocument :=
  { m with document_type := DocumentType.attachment
           attachment_number := a.attachment_number
           acms_document_guid :=
            match a.acms_document_guid with
            | some g => g
            | none => m.acms_document_guid }

/-- One iteration of the attachment loop of `merge_attachment_page_data`
(mergers.py lines 1828-1964). -/
def processAttachment (isLong : String → Bool)
    (convertSize : String → Option Nat) (court_is_appellate : Bool)
    (orig_doc_id : String) (document_number : String) (dePk : Nat)
    (st : AttLoopState) (a : AttachmentDict) :
    Except MergeErr AttLoopState :=
  if attSanityFails a then .ok st
  else if attPageCountSkip a then .ok st
  else
    match getRd st.store st.mainPk with
    | none => .ok st
    | some m =>
      if court_is_appellate && a.pacer_doc_id == some m.pacer_doc_id &&
          !st.main_rd_to_att then
        .ok (attCommonUpdates isLong convertSize court_is_appellate
          orig_doc_id document_number { st with main_rd_to_att := true } a
          (promotedRd a m) false)
      else
        match st.store.rds.filter (attParamsMatch dePk document_number a) with
        | [r] =>
          .ok (attCommonUpdates isLong convertSize court_is_appellate
            orig_doc_id document_number st a r false)
        | _ :: _ :: _ => .error .multipleObjectsReturned
        | [] =>
          match st.store.rds.filter
              (attDocIdParamsMatch isLong court_is_appellate dePk
                document_number a) with
          | [r] =>
            let r' :=
              if a.attachment_number == some 0 then
                { r with description :=
                          migratedMainDescription st.store dePk
                         attachment_number := none
                         document_type := DocumentType.pacerDocument }
              else
                { r with attachment_number := a.attachment_number
                         document_type := DocumentType.attachment }
            .ok (attCommonUpdates isLong convertSize court_is_appellate
              orig_doc_id document_number st a r' false)
          | _ :: _ :: _ => .error .multipleObjectsReturned
          | [] =>
            let fresh : RECAPDocument :=
              { pk := st.store.nextPk
                docket_entry := dePk
                document_type :=
                  if a.attachment_number == some 0 then
                    DocumentType.pacerDocument
                  else DocumentType.attachment
                attachment_number :=
                  if a.attachment_number == some 0 then none
                  else a.attachment_number
                pacer_doc_id := ""
                document_number := document_number
                description :=
                  if a.attachment_number == some 0 then
                    migratedMainDescription st.store dePk
                  else ""
                page_count := none
                file_size := none
                is_available := false
                filepath_local := ""
                acms_document_guid := a.acms_document_guid.getD ""
                date_created := st.store.nextPk }
            .ok (attCommonUpdates isLong convertSize court_is_appellate
              orig_doc_id document_number st a fresh true)

/-- The attachment loop of `merge_attachment_page_data`, folded over the
parsed attachment dicts. -/
def attLoop (isLong : String → Bool) (convertSize : String → Option Nat)
    (court_is_appellate : Bool) (orig_doc_id : String)
    (document_number : String) (dePk : Nat) :
    AttLoopState → List AttachmentDict → Except MergeErr AttLoopState
  | st, [] => .ok st
  | st, a :: rest =>
    match processAttachment isLong convertSize court_is_appellate
      orig_doc_id document_number dePk st a with
    | .error e => .error e
    | .ok st' =>
      attLoop isLong convertSize court_is_appellate orig_doc_id
        document_number dePk st' rest

/-- How many documents of the list carry the given PACER document id. -/
def countDocId (rds : List RECAPDocument) (docId : String) : Nat :=
  (rds.filter (fun r => r.pacer_doc_id == docId)).length

/-- The keep-newest-prefer-available choice of `keep_latest_rd_document`,
as a pure selection on a duplicate group. -/
def keepChoice (group : List RECAPDocument) : Option RECAPDocument :=
  let withPdf := group.filter (fun r =>
    r.is_available && r.filepath_local != "")
  match latestCreated withPdf with
  | some r => some r
  | none => latestCreated group

/-- Embedding of `clean_duplicate_attachment_entries` (mergers.py lines
1622-1669).  First pass: among the entry's documents sharing a PACER
document id, delete those whose attachment number conflicts with a
currently-parsed attachment carrying that id.  Second pass: for each
remaining duplicated id, keep only the newest (preferring an available
local copy). -/
def clean_duplicate_attachment_entries (s : Store) (dePk : Nat)
    (atts : List AttachmentDict) : Store :=
  let entryRds := s.rds.filter (fun r => r.docket_entry == dePk)
  let deleted1 := fun (r : RECAPDocument) =>
    r.docket_entry == dePk && decide (2 ≤ countDocId entryRds r.pacer_doc_id)
    && atts.any (fun a =>
        a.pacer_doc_id == some r.pacer_doc_id &&
        a.attachment_number != r.attachment_number)
  let s1 := { s with rds := s.rds.filter (fun r => !deleted1 r) }
  let entryRds1 := s1.rds.filter (fun r => r.docket_entry == dePk)
  let kept2 := fun (r : RECAPDocument) =>
    countDocId entryRds1 r.pacer_doc_id ≤ 1 ||
    (keepChoice (entryRds1.filter
        (fun x => x.pacer_doc_id == r.pacer_doc_id))).any
      (fun k => k.pk == r.pk)
  { s1 with rds := s1.rds.filter (fun r =>
      r.docket_entry != dePk || kept2 r) }

/-- Embedding of `merge_attachment_page_data` (mergers.py lines
1672-1972): resolve the entry's main document, then create or update a
document row per parsed attachment (promoting the appellate main document
in place when an attachment shares its id), and finally run duplicate
cleanup.  The raw-page archival, IA-upload marking and orphan-document
re-submission touch collaborators outside the modelled store and have no
effect on it.  `court_is_appellate` is the value of the external
`ais_appellate_court` for this court, `isLong` the external
`is_long_appellate_document_number`, `convertSize` the external
`convert_size_to_bytes` (returning `none` on a ValueError).  Returns the
store, the affected row pks, the created row pks and the entry pk. -/
def merge_attachment_page_data (isLong : String → Bool)
    (convertSize : String → Option Nat) (s : Store) (court_id : String)
    (court_is_appellate : Bool) (pacer_case_id : Option String)
    (pacer_doc_id : String) (document_number : Option String)
    (atts : List AttachmentDict) (debug is_acms : Bool) :
    Except MergeErr (Store × List Nat × List Nat × Nat) :=
  match resolve_main_rd s court_id pacer_case_id pacer_doc_id atts
    is_acms with
  | .error e => .error e
  | .ok out =>
    let dePk := out.main_rd.docket_entry
    let docnum :=
      match document_number with
      | none => out.main_rd.document_number
      | some n => n
    if debug then .ok (out.store, [], out.createdPks, dePk)
    else
      match attLoop isLong convertSize court_is_appellate pacer_doc_id
        docnum dePk
        { store := out.store
          mainPk := out.main_rd.pk
          main_rd_to_att := false
          -- a row created while resolving was appended to both lists
          -- (mergers.py lines 1795-1796)
          affectedPks := out.createdPks
          createdPks := out.createdPks } atts with
      | .error e => .error e
      | .ok st =>
        let s' :=
          if !is_acms then
            clean_duplicate_attachment_entries st.store dePk atts
          else st.store
        .ok (s', st.affectedPks, st.createdPks, dePk)

/-! ## Entry reconciliation and last-filing date (`add_docket_entries`,
mergers.py lines 675-836 and 868-1064) -/

/-- Strip the trailing entered-date suffix, modelling the first regex of
`normalize_long_description` (mergers.py line 666): when the description
ends with a closing parenthesis and contains the marker, everything from
the last marker on is removed (the greedy group keeps the longest
prefix). -/
def stripEnteredSuffix (desc : String) : String :=
  let marker := " (Entered: "
  let parts := desc.splitOn marker
  if 2 ≤ parts.length && desc.endsWith ")" then
    marker.intercalate (parts.dropLast)
  else desc

/-- Remove square brackets around digit runs, modelling the second regex
of `normalize_long_description` (mergers.py line 670).  The fuel starts at
the character count; each step consumes at least one character. -/
def stripNumberBracketsGo : Nat → List Char → List Char
  | 0, l => l
  | _ + 1, [] => []
  | fuel + 1, c :: rest =>
    if c = '[' then
      let digits := rest.takeWhile Char.isDigit
      let rest' := rest.drop digits.length
      match digits, rest' with
      | _ :: _, ']' :: tail => digits ++ stripNumberBracketsGo fuel tail
      | _, _ => c :: stripNumberBracketsGo fuel rest
    else c :: stripNumberBracketsGo fuel rest

/-- Remove square brackets around digit runs in a description. -/
def stripNumberBrackets (s : String) : String :=
  String.mk (stripNumberBracketsGo s.length s.toList)

/-- Embedding of `normalize_long_description` (mergers.py lines 648-672):
normalize an entry's long description (drop the entered-date suffix, drop
brackets around numbers); blank descriptions pass through. -/
def normalize_long_description (de : EntryDict) : EntryDict :=
  if de.description == "" then de
  else { de with description :=
          stripNumberBrackets (stripEnteredSuffix de.description) }

/-- Delete docket entries by primary key; Django cascades each deletion to
the entry's documents. -/
def deleteEntries (s : Store) (pks : List Nat) : Store :=
  { s with entries := s.entries.filter (fun e => !(pks.contains e.pk))
           rds := s.rds.filter (fun r => !(pks.contains r.docket_entry)) }

/-- Update an existing docket-entry row in place. -/
def updateEntry (s : Store) (e : DocketEntryRow) : Store :=
  { s with entries := s.entries.map (fun x => if x.pk == e.pk then e else x) }

/-- Django `queryset.earliest("date_created")` over entries (first row of
minimal creation date, in store order). -/
def earliestEntry : List DocketEntryRow → Option DocketEntryRow
  | [] => none
  | e :: rest =>
    some (rest.foldl
      (fun b x => if x.date_created < b.date_created then x else b) e)

/-- Django `queryset.latest("date_created")` over entries (first row of
maximal creation date, in store order). -/
def latestEntry : List DocketEntryRow → Option DocketEntryRow
  | [] => none
  | e :: rest =>
    some (rest.foldl
      (fun b x => if b.date_created < x.date_created then x else b) e)

/-- Embedding of `merge_unnumbered_docket_entries` (mergers.py lines
675-706): among the candidate duplicates prefer those whose long
description matches the incoming one or is blank, keep the earliest
winner, and delete the rest of that set.  Returns the updated store and
the winner's primary key; `none` on an empty candidate set (unreachable
from the caller). -/
def merge_unnumbered_docket_entries (s : Store)
    (des : List DocketEntryRow) (docket_entry : EntryDict) :
    Option (Store × Nat) :=
  let matched := des.filter (fun e =>
    e.description == docket_entry.description || e.description == "")
  match earliestEntry matched with
  | some winner =>
    some (deleteEntries s ((matched.filter
      (fun e => e.pk != winner.pk)).map DocketEntryRow.pk), winner.pk)
  | none =>
    match earliestEntry des with
    | some winner =>
      some (deleteEntries s ((des.filter
        (fun e => e.pk != winner.pk)).map DocketEntryRow.pk), winner.pk)
    | none => none

/-- A fresh docket-entry row as created inside the entry transaction
(Django defaults for the fields the create params leave out). -/
def newEntryRow (s : Store) (dPk : Nat) (number : Option String)
    (seq : Option Int) : DocketEntryRow :=
  { pk := s.nextPk
    docket := dPk
    entry_number := number
    pacer_sequence_number := seq
    date_filed := none
    time_filed := none
    description := ""
    recap_sequence_number := ""
    date_created := s.nextPk }

/-- Insert a fresh docket-entry row. -/
def insertEntry (s : Store) (e : DocketEntryRow) : Store :=
  { s with entries := s.entries ++ [e], nextPk := s.nextPk + 1 }

/-- Embedding of `add_create_docket_entry_transaction` (mergers.py lines
709-777): locate or create the numbered docket entry under the docket's
row lock, preferring a match on (entry number, PACER sequence number),
adopting an entry previously stored with a null sequence number, and
collapsing duplicates onto the newest row.  Returns `none` where the code
returns `None` (ambiguous entries without a sequence number). -/
def add_create_docket_entry_transaction (s : Store) (dPk : Nat)
    (docket_entry : EntryDict) : Option (Store × Nat × Bool) :=
  let seq := docket_entry.pacer_seq_no
  let paramsMatch := fun (e : DocketEntryRow) =>
    e.docket == dPk && e.entry_number == docket_entry.document_number &&
    (match seq with
     | some q => e.pacer_sequence_number == some q
     | none => true)
  let nullSeq := fun (e : DocketEntryRow) =>
    e.docket == dPk && e.entry_number == docket_entry.document_number &&
    e.pacer_sequence_number == none
  let nullSet := s.entries.filter nullSeq
  match s.entries.filter paramsMatch with
  | [e] => some (s, e.pk, false)
  | [] =>
    if seq.isSome && !nullSet.isEmpty then
      match latestEntry nullSet with
      | some de =>
        some (deleteEntries s ((nullSet.filter
          (fun e => e.pk != de.pk)).map DocketEntryRow.pk), de.pk, false)
      | none => none
    else
      let e := newEntryRow s dPk docket_entry.document_number seq
      some (insertEntry s e, e.pk, true)
  | _ :: _ :: _ =>
    match seq with
    | none => none
    | some q =>
      let seqMatch := fun (e : DocketEntryRow) =>
        e.docket == dPk && e.entry_number == docket_entry.document_number &&
        e.pacer_sequence_number == some q
      match s.entries.filter seqMatch with
      | [e] =>
        some (deleteEntries s (nullSet.map DocketEntryRow.pk), e.pk, false)
      | [] =>
        if !nullSet.isEmpty then
          match latestEntry nullSet with
          | some de =>
            some (deleteEntries s ((nullSet.filter
              (fun e => e.pk != de.pk)).map DocketEntryRow.pk), de.pk,
              false)
          | none => none
        else
          let e := newEntryRow s dPk docket_entry.document_number
            (some q)
          some (insertEntry s e, e.pk, true)
      | dups =>
        match latestEntry dups with
        | some de =>
          let s1 := deleteEntries s ((dups.filter
            (fun e => e.pk != de.pk)).map DocketEntryRow.pk)
          some (deleteEntries s1 (nullSet.map DocketEntryRow.pk), de.pk,
            false)
        | none => none

/-- Embedding of `get_or_make_docket_entry` (mergers.py lines 780-836):
numbered entries go through the locking transaction; unnumbered entries
are matched by filed date and long or short description, merging
duplicates.  Returns the store, the entry's primary key, and whether it
was created. -/
def get_or_make_docket_entry (s : Store) (dPk : Nat)
    (docket_entry : EntryDict) : Option (Store × Nat × Bool) :=
  if optStrTruthy docket_entry.document_number then
    add_create_docket_entry_transaction s dPk docket_entry
  else
    let de := normalize_long_description docket_entry
    let hasDesc := de.description != ""
    let hasShort := optStrTruthy de.short_description
    let qMatch := fun (e : DocketEntryRow) =>
      e.docket == dPk && e.date_filed == de.date_filed &&
      e.entry_number == de.document_number &&
      (if hasDesc || hasShort then
        (hasDesc && e.description == de.description) ||
        (hasShort && s.rds.any (fun r =>
          r.docket_entry == e.pk &&
          r.description == de.short_description.getD ""))
      else true)
    match s.entries.filter qMatch with
    | [] =>
      let e := newEntryRow s dPk de.document_number none
      some (insertEntry s e, e.pk, true)
    | [e] => some (s, e.pk, false)
    | des =>
      match merge_unnumbered_docket_entries s des de with
      | some (s', pk) => some (s', pk, false)
      | none => none

/-- Python `docket_entry.get("pacer_seq_no") or de.pacer_sequence_number`:
the incoming value wins only when truthy (zero is falsy). -/
def seqNoOr (incoming : Option Int) (current : Option Int) : Option Int :=
  match incoming with
  | some q => if q ≠ 0 then some q else current
  | none => current

/-- Result of `add_docket_entries` restricted to the modelled outputs: the
store, the processed entry pks, and the content-updated flag. -/
structure AddEntriesOut where
  store : Store
  desPks : List Nat
  content_updated : Bool
  deriving Repr

/-- The field updates applied to a located or created docket entry
(mergers.py lines 906-921): description, filed date/time (the time is
cleared when the date changed and no new time is supplied), PACER
sequence number and RECAP sequence number. -/
def applyEntryUpdates (court_id : String) (docket_entry : EntryDict)
    (seqnum : String) (e : DocketEntryRow) : DocketEntryRow :=
  let e1 := { e with description :=
    if docket_entry.description != "" then docket_entry.description
    else e.description }
  let (date_filed, time_filed) :=
    localize_date_and_time court_id docket_entry.date_filed
  let e2 :=
    match time_filed with
    | none =>
      if e1.date_filed != docket_entry.date_filed then
        { e1 with time_filed := none }
      else e1
    | some t => { e1 with time_filed := some t }
  { e2 with
    date_filed := date_filed
    pacer_sequence_number :=
      seqNoOr docket_entry.pacer_seq_no e2.pacer_sequence_number
    recap_sequence_number := seqnum }

/-- The contribution of one saved entry to `known_filing_dates`
(mergers.py line 932): its filed date, when present. -/
def createdDate (e : DocketEntryRow) : List Nat :=
  match e.date_filed with
  | some x => [x]
  | none => []

/-- The per-entry loop of `add_docket_entries` (mergers.py lines
899-932 and 1058-1062).  `known` accumulates the filed dates of entries
created in this call.  The document-reconciliation section of the loop
body (mergers.py lines 933-1056) reads and writes only RECAPDocument rows
and never touches `known_filing_dates` or the docket row, so it is
outside this date-focused model. -/
def addEntriesLoop (court_id : String) (dPk : Nat)
    (do_not_update_existing : Bool) (s : Store) (desPks : List Nat)
    (known : List Nat) (content : Bool) :
    List (EntryDict × String) → Store × List Nat × List Nat × Bool × Bool
  | [] => (s, desPks, known, content, false)
  | (docket_entry, seqnum) :: rest =>
    match get_or_make_docket_entry s dPk docket_entry with
    | none =>
      addEntriesLoop court_id dPk do_not_update_existing s desPks known
        content rest
    | some (s1, dePk, de_created) =>
      match s1.entries.find? (fun e => e.pk == dePk) with
      | none =>
        addEntriesLoop court_id dPk do_not_update_existing s1 desPks known
          content rest
      | some e =>
        let e3 := applyEntryUpdates court_id docket_entry seqnum e
        if do_not_update_existing && !de_created then
          -- early return before the save and before the bulk update
          (s1, desPks ++ [dePk], known, content, true)
        else
          addEntriesLoop court_id dPk do_not_update_existing
            (updateEntry s1 e3) (desPks ++ [dePk])
            (known ++ (if de_created then createdDate e3 else []))
            (content || de_created) rest

/-- The filed dates of the entries newly created by the per-entry loop,
in loop order: exactly the values appended to `known_filing_dates` by
mergers.py lines 930-932, read off by replaying the loop with empty
accumulators. -/
def createdFilingDates (court_id : String) (dPk : Nat) (dnu : Bool)
    (s : Store) (l : List (EntryDict × String)) : List Nat :=
  (addEntriesLoop court_id dPk dnu s [] [] false l).2.2.1

/-- Embedding of `add_docket_entries` (mergers.py lines 868-932 and
1058-1064), restricted to entry reconciliation and last-filing-date
bookkeeping: drop undated entries, compute sequence numbers, process each
entry, and finally advance the docket's last-filing date to the maximum
of its prior value and the filed dates of the entries created in this
call, in one bulk update — skipped entirely when
`do_not_update_existing` aborts on an existing entry. -/
def add_docket_entries (s : Store) (dPk : Nat)
    (docket_entries : List EntryDict)
    (do_not_update_existing : Bool := false) : AddEntriesOut :=
  let dated := docket_entries.filter (fun de => de.date_filed.isSome)
  let court_id :=
    match s.dockets.find? (fun d => d.pk == some dPk) with
    | some d => d.court_id
    | none => ""
  let annotated := calculate_recap_sequence_numbers dated court_id
  let old_last :=
    match s.dockets.find? (fun d => d.pk == some dPk) with
    | some d => d.date_last_filing
    | none => none
  let (s1, desPks, known, content, earlyReturn) :=
    addEntriesLoop court_id dPk do_not_update_existing s []
      (match old_last with | some x => [x] | none => []) false annotated
  if earlyReturn then
    { store := s1, desPks := desPks, content_updated := content }
  else
    match known with
    | [] => { store := s1, desPks := desPks, content_updated := content }
    | k :: ks =>
      let m := ks.foldl max k
      { store := { s1 with dockets := s1.dockets.map (fun d =>
          if d.pk == some dPk then { d with date_last_filing := some m }
          else d) }
        desPks := desPks
        content_updated := content }

/-! ## Party/attorney reconciliation (`add_parties_and_attorneys`,
mergers.py lines 1067-1366) -/

/-- Role enum of `cl.people_db.models.Role`, restricted to the values the
merger code distinguishes. -/
inductive RoleKind
  | lead
  | noticed
  | terminated
  | self_terminated
  | unknown
  deriving DecidableEq, Repr

/-- A normalized attorney role, as produced by the external
`normalize_attorney_role` (spec section 4.4: free-text role strings are
parsed into a role enum plus an optional action date). -/
structure RoleAssignment where
  role : RoleKind
  date_action : Option Nat
  role_raw : String
  deriving DecidableEq, Repr

/-- Party row (`cl.people_db.models.Party`). -/
structure PartyRow where
  pk : Nat
  name : String
  date_created : Nat
  deriving DecidableEq, Repr

/-- PartyType join row: Party to Docket, with role label, criminal
sub-fields and termination date. -/
structure PartyTypeRow where
  pk : Nat
  docket : Nat
  party : Nat
  name : String
  extra_info : String
  date_terminated : Option Nat
  highest_offense_level_opening : String
  highest_offense_level_terminated : String
  deriving DecidableEq, Repr

/-- Attorney row (`cl.people_db.models.Attorney`). -/
structure AttorneyRow where
  pk : Nat
  name : String
  contact_raw : String
  email : String
  phone : String
  fax : String
  date_created : Nat
  deriving DecidableEq, Repr

/-- Role join row: Attorney, Party, Docket with a role value. -/
structure RoleRow where
  pk : Nat
  attorney : Nat
  party : Nat
  docket : Nat
  role : RoleKind
  date_action : Option Nat
  role_raw : String
  deriving DecidableEq, Repr

/-- AttorneyOrganization row, identified by its normalized lookup key. -/
structure OrgRow where
  pk : Nat
  lookup_key : String
  deriving DecidableEq, Repr

/-- AttorneyOrganizationAssociation join row. -/
structure OrgAssocRow where
  pk : Nat
  attorney : Nat
  org : Nat
  docket : Nat
  deriving DecidableEq, Repr

/-- CriminalCount row, belonging to a PartyType. -/
structure CriminalCountRow where
  pk : Nat
  party_type : Nat
  name : String
  disposition : String
  status : Nat
  deriving DecidableEq, Repr

/-- CriminalComplaint row, belonging to a PartyType. -/
structure CriminalComplaintRow where
  pk : Nat
  party_type : Nat
  name : String
  disposition : String
  deriving DecidableEq, Repr

/-- The store of party/attorney data touched by the reconciler. -/
structure PartyStore where
  parties : List PartyRow
  party_types : List PartyTypeRow
  attorneys : List AttorneyRow
  roles : List RoleRow
  orgs : List OrgRow
  org_assocs : List OrgAssocRow
  criminal_counts : List CriminalCountRow
  criminal_complaints : List CriminalComplaintRow
  nextPk : Nat
  deriving DecidableEq, Repr

/-- Scraped criminal count dict. -/
structure CriminalCountDict where
  name : String
  disposition : String
  status : String
  deriving DecidableEq, Repr

/-- Scraped criminal complaint dict. -/
structure CriminalComplaintDict where
  name : String
  disposition : String
  deriving DecidableEq, Repr

/-- Scraped criminal data dict of a party. -/
structure CriminalDataDict where
  highest_offense_level_opening : String
  highest_offense_level_terminated : String
  counts : List CriminalCountDict
  complaints : List CriminalComplaintDict
  deriving DecidableEq, Repr

/-- Scraped attorney dict, with free-text role strings. -/
structure AttorneyDictRaw where
  name : String
  contact : String
  roles : List String
  deriving DecidableEq, Repr

/-- Scraped attorney dict after `normalize_attorney_roles`. -/
structure AttorneyDictNorm where
  name : String
  contact : String
  roles : List RoleAssignment
  deriving DecidableEq, Repr

/-- Scraped party dict, with free-text attorney roles. -/
structure PartyDictRaw where
  name : String
  ptype : String
  extra_info : String
  date_terminated : Option Nat
  criminal_data : Option CriminalDataDict
  attorneys : List AttorneyDictRaw
  deriving DecidableEq, Repr

/-- Scraped party dict after `normalize_attorney_roles`. -/
structure PartyDictNorm where
  name : String
  ptype : String
  extra_info : String
  date_terminated : Option Nat
  criminal_data : Option CriminalDataDict
  attorneys : List AttorneyDictNorm
  deriving DecidableEq, Repr

/-- Normalized attorney-organization contact block. -/
structure OrgInfo where
  lookup_key : String
  deriving DecidableEq, Repr

/-- Normalized attorney contact details. -/
structure ContactInfo where
  email : String
  phone : String
  fax : String
  deriving DecidableEq, Repr

/-- The external normalization collaborators of the reconciler, passed as
parameters: `normRole` is `normalize_attorney_role` (cl.lib.pacer),
`normContact` is `normalize_attorney_contact` (cl.lib.pacer, taking
contact text and the fallback name), `normStatus` is
`CriminalCount.normalize_status`. -/
structure PartyCtx where
  normRole : String → RoleAssignment
  normContact : String → String → Option OrgInfo × Option ContactInfo
  normStatus : String → Nat

/-- Modelled from the spec: `remove_duplicate_dicts` (`cl.lib.utils`, not
under `src/`) removes exact duplicate (role, date) pairs (spec section
4.4); we keep the first occurrence of each value. -/
def removeDuplicateRoles (l : List RoleAssignment) : List RoleAssignment :=
  (l.foldl (fun acc r => if acc.contains r then acc else acc ++ [r]) [])

/-- Embedding of `normalize_attorney_roles` (mergers.py lines 1146-1189):
parse every attorney's free-text roles and drop exact duplicates. -/
def normalize_attorney_roles (ctx : PartyCtx) (parties : List PartyDictRaw) :
    List PartyDictNorm :=
  parties.map (fun p =>
    { name := p.name
      ptype := p.ptype
      extra_info := p.extra_info
      date_terminated := p.date_terminated
      criminal_data := p.criminal_data
      attorneys := p.attorneys.map (fun a =>
        { name := a.name
          contact := a.contact
          roles := removeDuplicateRoles (a.roles.map ctx.normRole) }) })

/-- Embedding of `check_json_for_terminated_entities` (mergers.py lines
1067-1086): whether any incoming party carries a termination date or any
incoming attorney a terminated role. -/
def check_json_for_terminated_entities (parties : List PartyDictNorm) :
    Bool :=
  parties.any (fun party =>
    party.date_terminated.isSome ||
    party.attorneys.any (fun atty =>
      atty.roles.any (fun r =>
        r.role == RoleKind.terminated ||
        r.role == RoleKind.self_terminated)))

/-- Embedding of `get_terminated_entities` (mergers.py lines 1089-1143):
the parties of the docket with a terminated PartyType, and the attorneys
of the docket with a terminated Role. -/
def get_terminated_entities (s : PartyStore) (d : Nat) :
    List Nat × List Nat :=
  ((s.parties.filter (fun p =>
      s.party_types.any (fun pt =>
        pt.docket == d && pt.party == p.pk &&
        pt.date_terminated.isSome))).map PartyRow.pk,
   (s.attorneys.filter (fun a =>
      s.roles.any (fun r =>
        r.docket == d && r.attorney == a.pk &&
        (r.role == RoleKind.terminated ||
         r.role == RoleKind.self_terminated)))).map AttorneyRow.pk)

/-- Embedding of `disassociate_extraneous_entities` (mergers.py lines
1192-1252): delete the docket's PartyType rows for parties not preserved
and Role rows for attorneys not preserved, sparing terminated entities
when the incoming data carries no termination markers; Party and Attorney
rows themselves are never deleted. -/
def disassociate_extraneous_entities (s : PartyStore) (d : Nat)
    (parties : List PartyDictNorm) (parties_to_preserve : List Nat)
    (attorneys_to_preserve : List Nat) : PartyStore :=
  let new_has_terminated := check_json_for_terminated_entities parties
  let preserved : List Nat × List Nat × List Nat :=
    if !new_has_terminated then
      let tp := (get_terminated_entities s d).1
      let ta := (get_terminated_entities s d).2
      if !tp.isEmpty || !ta.isEmpty then
        (parties_to_preserve ++ tp, attorneys_to_preserve ++ ta, tp)
      else (parties_to_preserve, attorneys_to_preserve, tp)
    else (parties_to_preserve, attorneys_to_preserve, [])
  { s with
    party_types := s.party_types.filter (fun pt =>
      pt.docket != d || preserved.1.contains pt.party)
    roles := s.roles.filter (fun r =>
      r.docket != d || preserved.2.1.contains r.attorney ||
      preserved.2.2.contains r.party) }

/-- Django `earliest("date_created")` over attorneys. -/
def earliestAttorney : List AttorneyRow → Option AttorneyRow
  | [] => none
  | a :: rest =>
    some (rest.foldl
      (fun b x => if x.date_created < b.date_created then x else b) a)

/-- Django `earliest("date_created")` over parties. -/
def earliestParty : List PartyRow → Option PartyRow
  | [] => none
  | p :: rest =>
    some (rest.foldl
      (fun b x => if x.date_created < b.date_created then x else b) p)

/-- Embedding of `add_attorney` (mergers.py lines 257-334): find or create
the attorney by name among attorneys already linked to the docket, merge
organization and contact data, and replace the attorney's roles for this
(party, docket) wholesale.  Returns the updated store and the attorney's
primary key. -/
def add_attorney (ctx : PartyCtx) (s : PartyStore)
    (atty : AttorneyDictNorm) (pPk dPk : Nat) : PartyStore × Nat :=
  let (atty_org_info, atty_info) := ctx.normContact atty.contact atty.name
  let attys := s.attorneys.filter (fun a =>
    a.name == atty.name &&
    s.roles.any (fun r => r.attorney == a.pk && r.docket == dPk))
  let (s1, aPk) :=
    match attys with
    | [] =>
      let row : AttorneyRow :=
        { pk := s.nextPk, name := atty.name, contact_raw := atty.contact,
          email := "", phone := "", fax := "", date_created := s.nextPk }
      ({ s with attorneys := s.attorneys ++ [row], nextPk := s.nextPk + 1 },
       row.pk)
    | [a] => (s, a.pk)
    | a :: rest =>
      match earliestAttorney (a :: rest) with
      | some b => (s, b.pk)
      | none => (s, a.pk)
  let s2 :=
    if atty.contact != "" then
      let s2a :=
        match atty_org_info with
        | none => s1
        | some oi =>
          let (s2o, orgPk) :=
            match s1.orgs.find? (fun o => o.lookup_key == oi.lookup_key) with
            | some o => (s1, o.pk)
            | none =>
              let row : OrgRow := { pk := s1.nextPk,
                                    lookup_key := oi.lookup_key }
              ({ s1 with orgs := s1.orgs ++ [row],
                         nextPk := s1.nextPk + 1 }, row.pk)
          if s2o.org_assocs.any (fun x =>
              x.attorney == aPk && x.org == orgPk && x.docket == dPk) then
            s2o
          else
            { s2o with
              org_assocs := s2o.org_assocs ++
                [{ pk := s2o.nextPk, attorney := aPk, org := orgPk,
                   docket := dPk }]
              nextPk := s2o.nextPk + 1 }
      match atty_info with
      | none => s2a
      | some ci =>
        { s2a with attorneys := s2a.attorneys.map (fun a =>
            if a.pk == aPk then
              { a with contact_raw := atty.contact, email := ci.email,
                       phone := ci.phone, fax := ci.fax }
            else a) }
    else s1
  let newRoles :=
    if atty.roles.isEmpty then
      [{ role := RoleKind.unknown, date_action := none,
         role_raw := "" : RoleAssignment }]
    else atty.roles
  let s3 := { s2 with roles := s2.roles.filter (fun r =>
    !(r.attorney == aPk && r.party == pPk && r.docket == dPk)) }
  let s4 := newRoles.foldl (fun (st : PartyStore) (ra : RoleAssignment) =>
    { st with
      roles := st.roles ++
        [{ pk := st.nextPk, attorney := aPk, party := pPk, docket := dPk,
           role := ra.role, date_action := ra.date_action,
           role_raw := ra.role_raw }]
      nextPk := st.nextPk + 1 }) s3
  (s4, aPk)

/-- The per-party body of `add_parties_and_attorneys` (mergers.py lines
1287-1362): find or create the party, upsert its PartyType, replace its
criminal counts/complaints wholesale, and upsert its attorneys. -/
def processParty (ctx : PartyCtx) (dPk : Nat)
    (acc : PartyStore × List Nat × List Nat) (party : PartyDictNorm) :
    PartyStore × List Nat × List Nat :=
  let (s, updatedP, updatedA) := acc
  let ps := s.parties.filter (fun p =>
    p.name == party.name &&
    s.party_types.any (fun pt => pt.party == p.pk && pt.docket == dPk))
  let (s1, pPk) :=
    match ps with
    | [] =>
      let row : PartyRow := { pk := s.nextPk, name := party.name,
                              date_created := s.nextPk }
      ({ s with parties := s.parties ++ [row], nextPk := s.nextPk + 1 },
       row.pk)
    | [p] => (s, p.pk)
    | p :: rest =>
      match earliestParty (p :: rest) with
      | some b => (s, b.pk)
      | none => (s, p.pk)
  let ptMatch := fun (pt : PartyTypeRow) =>
    pt.party == pPk && pt.docket == dPk && pt.name == party.ptype
  let applyUpdate := fun (pt : PartyTypeRow) =>
    let pt1 := { pt with extra_info := party.extra_info,
                         date_terminated := party.date_terminated }
    match party.criminal_data with
    | some cd =>
      { pt1 with
        highest_offense_level_opening := cd.highest_offense_level_opening
        highest_offense_level_terminated :=
          cd.highest_offense_level_terminated }
    | none => pt1
  let (s2, ptPk) :=
    if s1.party_types.any ptMatch then
      let s2 := { s1 with party_types := s1.party_types.map (fun pt =>
        if ptMatch pt then applyUpdate pt else pt) }
      match s2.party_types.filter ptMatch with
      | pt :: _ => (s2, pt.pk)
      | [] => (s2, 0)
    else
      let row := applyUpdate
        { pk := s1.nextPk, docket := dPk, party := pPk, name := party.ptype,
          extra_info := "", date_terminated := none,
          highest_offense_level_opening := "",
          highest_offense_level_terminated := "" }
      ({ s1 with party_types := s1.party_types ++ [row],
                 nextPk := s1.nextPk + 1 }, row.pk)
  let s3 :=
    match party.criminal_data with
    | some cd =>
      if !cd.counts.isEmpty then
        let s3a := { s2 with criminal_counts :=
          s2.criminal_counts.filter (fun c => c.party_type != ptPk) }
        cd.counts.foldl (fun (st : PartyStore) (c : CriminalCountDict) =>
          { st with
            criminal_counts := st.criminal_counts ++
              [{ pk := st.nextPk, party_type := ptPk, name := c.name,
                 disposition := c.disposition,
                 status := ctx.normStatus c.status }]
            nextPk := st.nextPk + 1 }) s3a
      else s2
    | none => s2
  let s4 :=
    match party.criminal_data with
    | some cd =>
      if !cd.complaints.isEmpty then
        let s4a := { s3 with criminal_complaints :=
          s3.criminal_complaints.filter (fun c => c.party_type != ptPk) }
        cd.complaints.foldl
          (fun (st : PartyStore) (c : CriminalComplaintDict) =>
            { st with
              criminal_complaints := st.criminal_complaints ++
                [{ pk := st.nextPk, party_type := ptPk, name := c.name,
                   disposition := c.disposition }]
              nextPk := st.nextPk + 1 }) s4a
      else s3
    | none => s3
  let (s5, updatedA') := party.attorneys.foldl
    (fun (acc2 : PartyStore × List Nat) (atty : AttorneyDictNorm) =>
      let (st, ua) := acc2
      let (st', aPk) := add_attorney ctx st atty pPk dPk
      (st', ua ++ [aPk])) (s4, updatedA)
  (s5, updatedP ++ [pPk], updatedA')

/-- Embedding of `add_parties_and_attorneys` (mergers.py lines
1255-1366): bail out on an empty party list, otherwise normalize the
(deep-copied) input, upsert every incoming party and attorney, and
disassociate the extraneous ones. -/
def add_parties_and_attorneys (ctx : PartyCtx) (s : PartyStore) (dPk : Nat)
    (parties : List PartyDictRaw) : PartyStore :=
  if parties.isEmpty then s
  else
    let local_parties := normalize_attorney_roles ctx parties
    let (s1, updatedP, updatedA) :=
      local_parties.foldl (processParty ctx dPk) (s, [], [])
    disassociate_extraneous_entities s1 dPk local_parties updatedP updatedA

/-! ## Spec-side predicates and fixtures used by the claims -/

/-- The effective PACER document id used by each iteration of the
legacy-feed fallback loop (mergers.py lines 1743-1745): an attachment's
truthy id replaces the previous one, otherwise the previous id stays in
the params. -/
def stickyIds (cur : String) : List AttachmentDict → List String
  | [] => []
  | a :: rest =>
    let cur' := if optStrTruthy a.pacer_doc_id then a.pacer_doc_id.getD cur
                else cur
    cur' :: stickyIds cur' rest

/-- The skip rule exactly as claim C7 words it: skipped when the
attachment is missing both an attachment index and an external document
id, or when its page count is absent and its attachment index is not 0. -/
def claimedSkipRule (a : AttachmentDict) : Bool :=
  (!a.attachment_number.isSome && !(optStrTruthy a.pacer_doc_id)) ||
  ((a.page_count == (none : Option (Option Nat)) ||
    a.page_count == some (none : Option Nat)) &&
   a.attachment_number != some 0)

/-- The skip rule as the code implements it (the amended claim C7):
skipped when the attachment index is missing or the external document id
is missing or blank, or when the page-count key is present with a null
value and the attachment index is not 0. -/
def amendedSkipRule (a : AttachmentDict) : Bool :=
  (!a.attachment_number.isSome || !(optStrTruthy a.pacer_doc_id)) ||
  (a.page_count == some (none : Option Nat) &&
   a.attachment_number != some 0)

/-- C3 counterexample fixture: the older docket.  Its raw docket number
"1:16-cv-745" has the same digits-only core as the incoming number
"1-16-cv-745" but differs from it as a cleaned string. -/
def c3Old : Docket :=
  { newDocket "canb" none with
      pk := some 1, docket_number := "1:16-cv-745",
      docket_number_core := "116745", date_created := 1 }

/-- C3 counterexample fixture: the newer docket, whose raw docket number
matches the incoming one. -/
def c3New : Docket :=
  { newDocket "canb" none with
      pk := some 2, docket_number := "1-16-cv-745",
      docket_number_core := "116745", date_created := 2 }

/-- C3 witness fixture: the older docket, raw number identical to the
incoming one. -/
def c3wOld : Docket := { c3Old with docket_number := "1-16-cv-745" }

/-- C3 witness fixture: the newer docket. -/
def c3wNew : Docket := c3New

/-- C7 fixture: a docket for the attachment-page merges. -/
def c7Docket : Docket := { newDocket "ca9" (some "100") with pk := some 1 }

/-- C7 fixture: the docket entry holding the main document. -/
def c7Entry : DocketEntryRow :=
  { pk := 2, docket := 1, entry_number := some "5",
    pacer_sequence_number := none, date_filed := some 50,
    time_filed := none, description := "", recap_sequence_number := "",
    date_created := 2 }

/-- C7 fixture: the entry's main document with PACER document id X. -/
def c7MainRd : RECAPDocument :=
  { pk := 3, docket_entry := 2, document_type := DocumentType.pacerDocument,
    attachment_number := none, pacer_doc_id := "X", document_number := "5",
    description := "main doc", page_count := none, file_size := none,
    is_available := false, filepath_local := "", acms_document_guid := "",
    date_created := 3 }

/-- C7 fixture: the store holding the docket, entry and main document. -/
def c7Store : Store :=
  { dockets := [c7Docket], entries := [c7Entry], rds := [c7MainRd],
    nextPk := 10 }

/-- C7 fixture: an attachment dict carrying an attachment index and a
page count but no PACER document id. -/
def c7Att : AttachmentDict :=
  { attachment_number := some 1, pacer_doc_id := none, description := "d",
    page_count := some (some 5), file_size_bytes := none,
    file_size_str := none, acms_document_guid := none }

/-- C4 fixture: the witness docket. -/
def c4Docket : Docket := c7Docket

/-- C4 fixture: the witness entry. -/
def c4Entry : DocketEntryRow := c7Entry

/-- C4 fixture: the witness main document with PACER document id X. -/
def c4MainRd : RECAPDocument := c7MainRd

/-- C4 fixture: the witness store. -/
def c4Store : Store :=
  { dockets := [c4Docket], entries := [c4Entry], rds := [c4MainRd],
    nextPk := 10 }

/-- C4 fixture: an attachment entry with index 0 sharing the main
document's PACER document id X. -/
def c4Att : AttachmentDict :=
  { attachment_number := some 0, pacer_doc_id := some "X",
    description := "att desc", page_count := some (some 4),
    file_size_bytes := none, file_size_str := none,
    acms_document_guid := none }

/-- C5 fixture: concrete instantiations of the external normalization
collaborators — roles parse to `unknown`, the blank contact block yields
no organization and no contact details. -/
def c5Ctx : PartyCtx :=
  { normRole := fun r =>
      { role := RoleKind.unknown, date_action := none, role_raw := r }
    normContact := fun _ _ => (none, none)
    normStatus := fun _ => 0 }

/-- C5 fixture: the terminated PartyType row joining party P (pk 1) to
docket 1. -/
def c5PartyTypeP : PartyTypeRow :=
  { pk := 3, docket := 1, party := 1, name := "Defendant",
    extra_info := "", date_terminated := some 5,
    highest_offense_level_opening := "",
    highest_offense_level_terminated := "" }

/-- C5 fixture: a store for docket 1 holding a previously terminated party
P, a live party Q, and one attorney A representing both. -/
def c5Store : PartyStore :=
  { parties := [{ pk := 1, name := "P", date_created := 1 },
                { pk := 2, name := "Q", date_created := 2 }]
    party_types := [c5PartyTypeP,
      { pk := 4, docket := 1, party := 2, name := "Plaintiff",
        extra_info := "", date_terminated := none,
        highest_offense_level_opening := "",
        highest_offense_level_terminated := "" }]
    attorneys := [{ pk := 5, name := "A", contact_raw := "", email := "",
                    phone := "", fax := "", date_created := 5 }]
    roles := [{ pk := 6, attorney := 5, party := 1, docket := 1,
                role := RoleKind.unknown, date_action := none,
                role_raw := "" },
              { pk := 7, attorney := 5, party := 2, docket := 1,
                role := RoleKind.unknown, date_action := none,
                role_raw := "" }]
    orgs := [], org_assocs := [], criminal_counts := []
    criminal_complaints := [], nextPk := 20 }

/-- C5 fixture: an incoming party list carrying a termination marker
(party Q is terminated) that omits party P; Q's attorney is the attorney
A shared with P. -/
def c5Incoming : PartyDictRaw :=
  { name := "Q", ptype := "Plaintiff", extra_info := "",
    date_terminated := some 9, criminal_data := none,
    attorneys := [{ name := "A", contact := "", roles := [] }] }

/-- C5 witness fixture: a normalized incoming party list with no
termination markers that omits party P. -/
def c5wParties : List PartyDictNorm :=
  [{ name := "Q", ptype := "Plaintiff", extra_info := "",
     date_terminated := none, criminal_data := none,
     attorneys := [{ name := "A", contact := "", roles := [] }] }]

/-- C8 fixture: a docket whose last-filing date is 10. -/
def c8Docket : Docket :=
  { newDocket "canb" none with pk := some 1, date_last_filing := some 10 }

/-- C8 fixture: a pre-existing numbered entry filed on day 50. -/
def c8Entry : DocketEntryRow :=
  { pk := 2, docket := 1, entry_number := some "5",
    pacer_sequence_number := none, date_filed := some 50,
    time_filed := none, description := "", recap_sequence_number := "",
    date_created := 2 }

/-- C8 fixture: the store holding the docket and the entry. -/
def c8Store : Store :=
  { dockets := [c8Docket], entries := [c8Entry], rds := [], nextPk := 10 }

/-- C8 fixture: an incoming dict matching the pre-existing entry. -/
def c8Dict : EntryDict :=
  { document_number := some "5", pacer_seq_no := none,
    date_filed := some 50, description := "x", short_description := none }

/-- C8 fixture: an incoming dict matching no pre-existing entry, filed on
day 60; processing it creates a fresh entry row. -/
def c8DictNew : EntryDict :=
  { document_number := some "7", pacer_seq_no := none,
    date_filed := some 60, description := "y", short_description := none }

/-! ## Theorems -/

/-- Claim C1: for every docket and incoming case name, `update_case_names`
follows the 3x3 decision table on (existing, incoming) in
(real name, placeholder, blank): an incoming real name always replaces the
existing case name; an incoming placeholder replaces only an existing
blank; an incoming blank never overwrites the existing value. -/
theorem claim_C1 (shorten : String → String) (d : Docket)
    (incoming : String) :
    (update_case_names shorten d incoming).case_name =
      if tableWins (classifyName d.case_name) (classifyName incoming) then
        incoming
      else d.case_name := by
  have hu : uct ≠ "" := by decide
  unfold update_case_names classifyName tableWins
  by_cases hinc : incoming = ""
  · simp [hinc]
  · by_cases huct : incoming = uct
    · by_cases hex : d.case_name = ""
      · simp [hinc, huct, hex, hu]
      · by_cases hcu : d.case_name = uct <;>
          simp [hinc, huct, hex, hu, hcu]
    · by_cases hex : d.case_name = ""
      · simp [hinc, huct, hex]
      · simp [hinc, huct, hex]

/-- Claim C2: `find_docket_object` is idempotent: calling it twice in
succession with identical input against an unchanged store returns the
same docket row both times (the function performs no writes, so the store
is unchanged by each call). -/
theorem claim_C2 (clean core_of : String → String) (store : List Docket)
    (court_id : String) (pacer_case_id : Option String)
    (docket_number : String) (fdn fja fjr : Option String) :
    (find_docket_object_call clean core_of store court_id pacer_case_id
        docket_number fdn fja fjr).1 =
      (find_docket_object_call clean core_of
        (find_docket_object_call clean core_of store court_id pacer_case_id
          docket_number fdn fja fjr).2
        court_id pacer_case_id docket_number fdn fja fjr).1 ∧
    (find_docket_object_call clean core_of store court_id pacer_case_id
        docket_number fdn fja fjr).2 = store :=
  ⟨rfl, rfl⟩

/-- Counterexample to claim C3 as stated: the
(null external id, docket-number-core) tier matches both fixture dockets
and narrowing by components does not reduce them to one, yet
`find_docket_object` returns a fresh unsaved docket (primary key `none`)
instead of the earliest-created one: after the oldest row is picked it is
re-validated against the incoming docket number, the cleaned numbers
differ, and the lookup falls through every remaining tier. -/
theorem claim_C3_counterexample :
    (([c3Old, c3New].filter (kwMatches "canb"
        (LookupKw.byNullCaseIdAndCore "116745"))).length = 2) ∧
    ((([c3Old, c3New].filter (kwMatches "canb"
        (LookupKw.byNullCaseIdAndCore "116745"))).filter
        (dnNarrowMatches none none none)).length ≠ 1) ∧
    c3Old.date_created < c3New.date_created ∧
    make_docket_number_core "1-16-cv-745" = "116745" ∧
    (find_docket_object clean_docket_number make_docket_number_core
        [c3Old, c3New] "canb" none "1-16-cv-745" none none none).pk
      = none := by decide

/-- Claim C3 as amended: when a lookup tier of `find_docket_object`
returns multiple dockets and narrowing by docket-number components does
not reduce them to exactly one, the function picks the docket with the
earliest creation date and re-validates it against the incoming docket
number (for tiers keyed on docket-number-core without an external case
id); when that re-validation passes — in particular when the two cleaned
docket numbers agree — the earliest-created docket is returned.
Otherwise the tier is rejected and the search continues, possibly
creating a new docket. -/
theorem claim_C3_amended (clean core_of : String → String)
    (store : List Docket) (court_id docket_number : String)
    (fdn fja fjr : Option String) (d1 d2 : Docket) (drest : List Docket)
    (hcore : core_of docket_number ≠ "")
    (hfilter : store.filter (kwMatches court_id
        (LookupKw.byNullCaseIdAndCore (core_of docket_number)))
      = d1 :: d2 :: drest)
    (hnarrow : ((d1 :: d2 :: drest).filter
        (dnNarrowMatches fdn fja fjr)).length ≠ 1)
    (hconfirm : clean (earliestCreated d1 (d2 :: drest)).docket_number
      = clean docket_number) :
    find_docket_object clean core_of store court_id none docket_number
      fdn fja fjr = earliestCreated d1 (d2 :: drest) := by
  unfold find_docket_object
  have hlk : docketLookups none docket_number (core_of docket_number)
      = [LookupKw.byNullCaseIdAndCore (core_of docket_number),
         LookupKw.byCore (core_of docket_number)] := by
    unfold docketLookups optStrTruthy
    simp [hcore]
  simp only [hlk]
  unfold findViaLookups
  simp only [hfilter]
  rcases hn : (d1 :: d2 :: drest).filter (dnNarrowMatches fdn fja fjr) with
    _ | ⟨x, _ | ⟨y, t⟩⟩
  · simp only [hn]
    unfold confirm_docket_number_core_lookup_match dnComponentConflict
      optStrTruthy
    simp [hconfirm, kwCaseIdIsNone, kwHasCore]
  · exact absurd (by simp [hn]) hnarrow
  · simp only [hn]
    unfold confirm_docket_number_core_lookup_match dnComponentConflict
      optStrTruthy
    simp [hconfirm, kwCaseIdIsNone, kwHasCore]

/-- Witness for the amended C3: two dockets share the court, the
digits-only core and a null external case id, and carry the same raw
docket number as the incoming one; the lookup returns the older docket. -/
theorem claim_C3_witness :
    find_docket_object clean_docket_number make_docket_number_core
      [c3wOld, c3wNew] "canb" none "1-16-cv-745" none none none
      = c3wOld := by
  have h := claim_C3_amended clean_docket_number make_docket_number_core
    [c3wOld, c3wNew] "canb" "1-16-cv-745" none none none c3wOld c3wNew []
    (by decide) (by decide) (by decide) (by decide)
  exact h.trans (by decide)

/-- Claim C6: on the entry list
((num=None, date=D1), (num=None, date=D1), (num=1, date=D2)) in received
order, `calculate_recap_sequence_numbers` treats the feed as ascending
(it is not reversed) and assigns the sequence numbers D1.001, D1.002 and
D2.001: index 1 for the first entry of each distinct filed date,
incremented while the date repeats, reset on a new date. -/
theorem claim_C6 (court_id : String) (d1 d2 : Nat) (h : d1 ≠ d2) :
    calculate_recap_sequence_numbers
      [{ document_number := none, pacer_seq_no := none,
         date_filed := some d1, description := "",
         short_description := none },
       { document_number := none, pacer_seq_no := none,
         date_filed := some d1, description := "",
         short_description := none },
       { document_number := some "1", pacer_seq_no := none,
         date_filed := some d2, description := "",
         short_description := none }] court_id =
      [({ document_number := none, pacer_seq_no := none,
          date_filed := some d1, description := "",
          short_description := none }, toString d1 ++ ".001"),
       ({ document_number := none, pacer_seq_no := none,
          date_filed := some d1, description := "",
          short_description := none }, toString d1 ++ ".002"),
       ({ document_number := some "1", pacer_seq_no := none,
          date_filed := some d2, description := "",
          short_description := none }, toString d2 ++ ".001")] := by
  have h' : d2 ≠ d1 := fun hc => h hc.symm
  have e1 : ∀ a : String,
      a ++ "." ++ ("00" ++ toString (1 : Nat)) = a ++ ".001" :=
    fun a => by rw [String.append_assoc]; congr 1
  have e2 : ∀ a : String,
      a ++ "." ++ ("00" ++ toString (2 : Nat)) = a ++ ".002" :=
    fun a => by rw [String.append_assoc]; congr 1
  simp [calculate_recap_sequence_numbers, get_order_of_docket,
    parseEntryNum, assignSeqNumbers, localize_date_and_time,
    make_recap_sequence_number, isoDate, pad3, h', List.zip]
  exact ⟨e1 _, e2 _, e1 _⟩

/-- Witness for C6 at D1 = 1, D2 = 2. -/
theorem claim_C6_witness :
    (1 : Nat) ≠ 2 ∧
    calculate_recap_sequence_numbers
      [{ document_number := none, pacer_seq_no := none,
         date_filed := some 1, description := "",
         short_description := none },
       { document_number := none, pacer_seq_no := none,
         date_filed := some 1, description := "",
         short_description := none },
       { document_number := some "1", pacer_seq_no := none,
         date_filed := some 2, description := "",
         short_description := none }] "canb" =
      [({ document_number := none, pacer_seq_no := none,
          date_filed := some 1, description := "",
          short_description := none }, toString 1 ++ ".001"),
       ({ document_number := none, pacer_seq_no := none,
          date_filed := some 1, description := "",
          short_description := none }, toString 1 ++ ".002"),
       ({ document_number := some "1", pacer_seq_no := none,
          date_filed := some 2, description := "",
          short_description := none }, toString 2 ++ ".001")] :=
  ⟨by decide, claim_C6 "canb" 1 2 (by decide)⟩

/-- Deleting entries does not touch the docket rows. -/
theorem deleteEntries_dockets (s : Store) (pks : List Nat) :
    (deleteEntries s pks).dockets = s.dockets := rfl

/-- Inserting an entry does not touch the docket rows. -/
theorem insertEntry_dockets (s : Store) (e : DocketEntryRow) :
    (insertEntry s e).dockets = s.dockets := rfl

/-- Updating an entry does not touch the docket rows. -/
theorem updateEntry_dockets (s : Store) (e : DocketEntryRow) :
    (updateEntry s e).dockets = s.dockets := rfl

/-- The numbered-entry transaction does not touch the docket rows. -/
theorem tx_dockets {s : Store} {dPk : Nat} {de : EntryDict} {s' : Store}
    {pk : Nat} {b : Bool}
    (h : add_create_docket_entry_transaction s dPk de = some (s', pk, b)) :
    s'.dockets = s.dockets := by
  simp only [add_create_docket_entry_transaction] at h
  repeat' split at h
  all_goals
    simp only [Option.some.injEq, Prod.mk.injEq, reduceCtorEq] at h
  all_goals
    obtain ⟨h1, -, -⟩ := h
  all_goals subst h1
  all_goals rfl

/-- Merging unnumbered duplicates does not touch the docket rows. -/
theorem merge_unnumbered_dockets {s : Store} {des : List DocketEntryRow}
    {de : EntryDict} {s' : Store} {pk : Nat}
    (h : merge_unnumbered_docket_entries s des de = some (s', pk)) :
    s'.dockets = s.dockets := by
  simp only [merge_unnumbered_docket_entries] at h
  repeat' split at h
  all_goals
    simp only [Option.some.injEq, Prod.mk.injEq, reduceCtorEq] at h
  all_goals
    obtain ⟨h1, -⟩ := h
  all_goals subst h1
  all_goals rfl

/-- Looking up or creating an entry does not touch the docket rows. -/
theorem gomde_dockets {s : Store} {dPk : Nat} {de : EntryDict} {s' : Store}
    {pk : Nat} {b : Bool}
    (h : get_or_make_docket_entry s dPk de = some (s', pk, b)) :
    s'.dockets = s.dockets := by
  simp only [get_or_make_docket_entry] at h
  split at h
  · exact tx_dockets h
  · repeat' split at h
    all_goals
      simp only [Option.some.injEq, Prod.mk.injEq, reduceCtorEq] at h
    all_goals obtain ⟨h1, -, -⟩ := h
    all_goals subst h1
    all_goals
      first
      | rfl
      | exact merge_unnumbered_dockets (by assumption)

/-- Loop invariants of the per-entry loop of `add_docket_entries`: the
docket rows are untouched, the known-filing-dates list only grows (and
only when an entry is created), and without `do_not_update_existing` the
loop never aborts early. -/
theorem addEntriesLoop_props (court_id : String) (dPk : Nat) (dnu : Bool) :
    ∀ (l : List (EntryDict × String)) (s : Store) (desPks known : List Nat)
      (content : Bool),
      ((addEntriesLoop court_id dPk dnu s desPks known content l).1.dockets
        = s.dockets) ∧
      (∃ extra,
        (addEntriesLoop court_id dPk dnu s desPks known content l).2.2.1
          = known ++ extra ∧
        ((addEntriesLoop court_id dPk dnu s desPks known content
            l).2.2.2.1 = false → content = false ∧ extra = [])) ∧
      (dnu = false →
        (addEntriesLoop court_id dPk dnu s desPks known content
          l).2.2.2.2 = false) := by
  intro l
  induction l with
  | nil =>
    intro s desPks known content
    refine ⟨rfl, ⟨[], by simp [addEntriesLoop], ?_⟩, fun _ => rfl⟩
    intro h
    exact ⟨by simpa [addEntriesLoop] using h, rfl⟩
  | cons p rest ih =>
    intro s desPks known content
    obtain ⟨de, seqnum⟩ := p
    simp only [addEntriesLoop]
    cases hg : get_or_make_docket_entry s dPk de with
    | none => exact ih s desPks known content
    | some v =>
      obtain ⟨s1, dePk, created⟩ := v
      dsimp only
      cases hf : s1.entries.find? (fun e => e.pk == dePk) with
      | none =>
        obtain ⟨h1, h2, h3⟩ := ih s1 desPks known content
        exact ⟨h1.trans (gomde_dockets hg), h2, h3⟩
      | some e =>
        dsimp only
        split
        · -- early return
          refine ⟨gomde_dockets hg, ⟨[], by simp, ?_⟩, ?_⟩
          · intro h
            exact ⟨h, rfl⟩
          · intro hdnu
            rename_i hcond
            rw [hdnu] at hcond
            simp at hcond
        · -- continue the loop after saving the entry
          obtain ⟨h1, ⟨extra, hkn, hct⟩, h3⟩ :=
            ih (updateEntry s1 (applyEntryUpdates court_id de seqnum e))
              (desPks ++ [dePk])
              (known ++ (if created then
                createdDate (applyEntryUpdates court_id de seqnum e)
                else []))
              (content || created)
          refine ⟨h1.trans ((updateEntry_dockets s1 _).trans
            (gomde_dockets hg)),
            ⟨(if created then
                createdDate (applyEntryUpdates court_id de seqnum e)
              else []) ++ extra, ?_, ?_⟩, h3⟩
          · rw [hkn, List.append_assoc]
          · intro hfin
            obtain ⟨hcc, hex⟩ := hct hfin
            rcases Bool.or_eq_false_iff.mp hcc with ⟨hc0, hcr⟩
            refine ⟨hc0, ?_⟩
            rw [hcr, hex]
            simp

/-- The known-filing-dates output of the per-entry loop is its seed
followed by the filed dates of the entries the loop created: the
accumulators are write-only, so the appended part does not depend on
them. -/
theorem addEntriesLoop_known (court_id : String) (dPk : Nat) (dnu : Bool) :
    ∀ (l : List (EntryDict × String)) (s : Store) (desPks known : List Nat)
      (content : Bool),
      (addEntriesLoop court_id dPk dnu s desPks known content l).2.2.1
        = known ++ createdFilingDates court_id dPk dnu s l := by
  intro l
  induction l with
  | nil =>
    intro s desPks known content
    simp [addEntriesLoop, createdFilingDates]
  | cons p rest ih =>
    intro s desPks known content
    obtain ⟨de, seqnum⟩ := p
    simp only [createdFilingDates, addEntriesLoop]
    cases hg : get_or_make_docket_entry s dPk de with
    | none =>
      rw [ih s desPks known content, ih s [] [] false,
        List.nil_append]
    | some v =>
      obtain ⟨s1, dePk, created⟩ := v
      dsimp only
      cases hf : s1.entries.find? (fun e => e.pk == dePk) with
      | none =>
        rw [ih s1 desPks known content, ih s1 [] [] false,
          List.nil_append]
      | some e =>
        dsimp only
        by_cases hcond : (dnu && !created) = true
        · rw [if_pos hcond, if_pos hcond]
          simp
        · rw [if_neg hcond, if_neg hcond]
          rw [ih _ _ _ _, ih _ _ _ _, List.nil_append,
            List.append_assoc]

/-- A value is bounded by a maximum fold started from it. -/
theorem le_foldl_max (l : List Nat) : ∀ x : Nat, x ≤ l.foldl max x := by
  induction l with
  | nil => intro x; exact le_refl x
  | cons a t ih =>
    intro x
    exact le_trans (le_max_left x a) (ih (max x a))

/-- Looking a docket up by primary key commutes with a pk-preserving
row transformation. -/
theorem find?_dockets_map (l : List Docket) (dPk : Nat)
    (f : Docket → Docket) (hf : ∀ d, (f d).pk = d.pk) :
    (l.map f).find? (fun d => d.pk == some dPk)
      = (l.find? (fun d => d.pk == some dPk)).map f := by
  induction l with
  | nil => rfl
  | cons a t ih =>
    by_cases hp : (a.pk == some dPk) = true
    · rw [List.map_cons, List.find?_cons_of_pos _ (by rw [hf a]; exact hp),
        @List.find?_cons_of_pos _ (fun d => d.pk == some dPk) a t hp,
        Option.map_some']
    · rw [List.map_cons,
        List.find?_cons_of_neg _ (by rw [hf a]; exact hp),
        @List.find?_cons_of_neg _ (fun d => d.pk == some dPk) a t hp, ih]

/-- Counterexample to claim C8 as stated: the call processes exactly one
entry, a pre-existing one filed on day 50 (so the maximum filed date
observed across pre-existing and new entries is 50), yet the docket's
last-filing date stays at its prior value 10: the code only considers the
filed dates of entries it created. -/
theorem claim_C8_counterexample :
    (add_docket_entries c8Store 1 [c8Dict]).desPks = [2] ∧
    (add_docket_entries c8Store 1 [c8Dict]).content_updated = false ∧
    ((add_docket_entries c8Store 1 [c8Dict]).store.entries.map
      DocketEntryRow.date_filed) = [some 50] ∧
    ((add_docket_entries c8Store 1 [c8Dict]).store.dockets.map
      Docket.date_last_filing) = [some 10] ∧
    ¬(((add_docket_entries c8Store 1 [c8Dict]).store.dockets.map
      Docket.date_last_filing) = [some (max 10 50)]) := by decide

/-- Claim C8 as amended: after `add_docket_entries` completes, the
docket's last-filing date equals the maximum of its prior value and the
filed dates of the entries newly created in the call (the values
`createdFilingDates` reads off the loop), applied in a single bulk
update that is skipped only when nothing contributes a date; filed dates
of pre-existing entries merely updated are not considered.  In
particular it never moves backward from its prior value, and when no
entry is created (and `do_not_update_existing` does not abort the call
early) it is unchanged. -/
theorem claim_C8_amended (s : Store) (dPk : Nat)
    (entries : List EntryDict) (dnu : Bool) (d0 : Docket)
    (hd : s.dockets.find? (fun d => d.pk == some dPk) = some d0) :
    (∀ x, d0.date_last_filing = some x →
      ∃ d1, (add_docket_entries s dPk entries dnu).store.dockets.find?
          (fun d => d.pk == some dPk) = some d1 ∧
        ∃ y, d1.date_last_filing = some y ∧ x ≤ y) ∧
    ((add_docket_entries s dPk entries dnu).content_updated = false →
      dnu = false →
      ∃ d1, (add_docket_entries s dPk entries dnu).store.dockets.find?
          (fun d => d.pk == some dPk) = some d1 ∧
        d1.date_last_filing = d0.date_last_filing) ∧
    (dnu = false →
      ∃ d1, (add_docket_entries s dPk entries dnu).store.dockets.find?
          (fun d => d.pk == some dPk) = some d1 ∧
        d1.date_last_filing =
          (match d0.date_last_filing with
           | some x => some ((createdFilingDates d0.court_id dPk dnu s
               (calculate_recap_sequence_numbers
                 (entries.filter (fun de => de.date_filed.isSome))
                 d0.court_id)).foldl max x)
           | none =>
             match createdFilingDates d0.court_id dPk dnu s
                 (calculate_recap_sequence_numbers
                   (entries.filter (fun de => de.date_filed.isSome))
                   d0.court_id) with
             | [] => none
             | k :: ks => some (ks.foldl max k))) := by
  have hpd0 : (d0.pk == some dPk) = true := by
    have h := List.find?_some hd
    simpa using h
  have hfpk : ∀ m : Nat, ∀ d : Docket,
      ((fun d : Docket => if d.pk == some dPk then
        { d with date_last_filing := some m } else d) d).pk = d.pk := by
    intro m d
    by_cases h : (d.pk == some dPk) = true <;> simp [h]
  unfold add_docket_entries
  simp only [hd]
  rcases hres : addEntriesLoop d0.court_id dPk dnu s []
      (match d0.date_last_filing with | some x => [x] | none => [])
      false (calculate_recap_sequence_numbers
        (entries.filter (fun de => de.date_filed.isSome)) d0.court_id)
    with ⟨s1, desPks, kn, ct, er⟩
  obtain ⟨hdk, ⟨extra, hkn, hct⟩, her⟩ :=
    addEntriesLoop_props d0.court_id dPk dnu
      (calculate_recap_sequence_numbers
        (entries.filter (fun de => de.date_filed.isSome)) d0.court_id)
      s [] (match d0.date_last_filing with | some x => [x] | none => [])
      false
  have hknow := addEntriesLoop_known d0.court_id dPk dnu
    (calculate_recap_sequence_numbers
      (entries.filter (fun de => de.date_filed.isSome)) d0.court_id)
    s [] (match d0.date_last_filing with | some x => [x] | none => [])
    false
  rw [hres] at hdk hkn hct her hknow
  dsimp only at hdk hkn hct her hknow
  simp only [hres]
  cases er with
  | true =>
    simp only [Bool.true_eq_false, if_true]
    refine ⟨?_, ?_, ?_⟩
    · intro x hx
      refine ⟨d0, ?_, x, hx, le_refl x⟩
      rw [hdk, hd]
    · intro _ hdnu
      exact absurd (her hdnu) (by simp)
    · intro hdnu
      exact absurd (her hdnu) (by simp)
  | false =>
    simp only [Bool.false_eq_true, if_false]
    refine ⟨?_, ?_, ?_⟩
    · intro x hx
      rw [hx] at hkn
      dsimp only at hkn
      rw [hkn]
      simp only [List.singleton_append]
      refine ⟨{ d0 with date_last_filing := some (extra.foldl max x) },
        ?_, extra.foldl max x, rfl, le_foldl_max extra x⟩
      rw [find?_dockets_map s1.dockets dPk _
        (hfpk (extra.foldl max x)), hdk, hd, Option.map_some']
      simp [hpd0]
    · intro hctf hdnu
      have hc : ct = false := by
        cases kn with
        | nil => simpa using hctf
        | cons k ks => simpa using hctf
      obtain ⟨-, hex⟩ := hct hc
      rw [hex, List.append_nil] at hkn
      rw [hkn]
      cases hdl : d0.date_last_filing with
      | none =>
        try dsimp only
        refine ⟨d0, ?_, hdl⟩
        rw [hdk, hd]
      | some x =>
        try dsimp only
        refine ⟨{ d0 with date_last_filing := some (List.foldl max x []) }, ?_, by simp [hdl]⟩
        rw [find?_dockets_map s1.dockets dPk _ (hfpk _), hdk, hd,
          Option.map_some']
        simp [hpd0]
    · intro hdnu
      revert hknow
      generalize createdFilingDates d0.court_id dPk dnu s
        (calculate_recap_sequence_numbers
          (entries.filter (fun de => de.date_filed.isSome))
          d0.court_id) = cr
      intro hknow
      cases hdl : d0.date_last_filing with
      | some x =>
        rw [hdl] at hknow
        dsimp only at hknow
        rw [hknow]
        simp only [List.singleton_append]
        refine ⟨{ d0 with date_last_filing := some (cr.foldl max x) },
          ?_, rfl⟩
        rw [find?_dockets_map s1.dockets dPk _ (hfpk _), hdk, hd,
          Option.map_some']
        simp [hpd0]
      | none =>
        rw [hdl] at hknow
        dsimp only at hknow
        rw [List.nil_append] at hknow
        rw [hknow]
        cases cr with
        | nil =>
          refine ⟨d0, ?_, hdl⟩
          rw [hdk, hd]
        | cons k ks =>
          refine ⟨{ d0 with date_last_filing := some (ks.foldl max k) },
            ?_, rfl⟩
          rw [find?_dockets_map s1.dockets dPk _ (hfpk _), hdk, hd,
            Option.map_some']
          simp [hpd0]

/-- Witness for the amended C8: the call creating a fresh entry filed on
day 60 advances the fixture docket's last-filing date from its prior
value 10 to max 10 60 — the maximum of the prior value and the created
entry's filed date — while the call merely updating the pre-existing
entry (filed on day 50) creates nothing and leaves the date unchanged. -/
theorem claim_C8_witness :
    c8Docket.date_last_filing = some 10 ∧
    (∃ d1, (add_docket_entries c8Store 1 [c8DictNew]
        false).store.dockets.find?
        (fun d => d.pk == some 1) = some d1 ∧
      d1.date_last_filing = some (max 10 60)) ∧
    (∃ d1, (add_docket_entries c8Store 1 [c8Dict] false).store.dockets.find?
        (fun d => d.pk == some 1) = some d1 ∧
      d1.date_last_filing = c8Docket.date_last_filing) := by
  refine ⟨by decide, ?_, ?_⟩
  · obtain ⟨d1, hf, he⟩ :=
      (claim_C8_amended c8Store 1 [c8DictNew] false c8Docket
        (by decide)).2.2 rfl
    refine ⟨d1, hf, ?_⟩
    rw [he]
    decide
  · exact (claim_C8_amended c8Store 1 [c8Dict] false c8Docket
      (by decide)).2.1 (by decide) rfl

/-- A disjunction of booleans is true when its left operand is. -/
theorem bor_true_left {a b : Bool} (h : a = true) : (a || b) = true := by
  simp [h]

/-- A disjunction of booleans is true when its right operand is. -/
theorem bor_true_right {a b : Bool} (h : b = true) : (a || b) = true := by
  simp [h]

/-- Counterexample to claim C5 as stated: the incoming list carries a
termination marker (party Q is terminated) and omits the previously
terminated party P, so the claim requires P's PartyType and Role join
rows to be deleted.  After the run, P's PartyType row is indeed gone and
no Party row was deleted — but P's Role row survives, because its
attorney also represents the updated party Q and attorney-preserved Role
rows are exempted from deletion regardless of their party. -/
theorem claim_C5_counterexample :
    check_json_for_terminated_entities
      (normalize_attorney_roles c5Ctx [c5Incoming]) = true ∧
    (c5Store.party_types.any (fun pt =>
      pt.party == 1 && pt.docket == 1 && pt.date_terminated.isSome))
      = true ∧
    ((add_parties_and_attorneys c5Ctx c5Store 1 [c5Incoming]).party_types.all
      (fun pt => pt.party != 1)) = true ∧
    ((add_parties_and_attorneys c5Ctx c5Store 1 [c5Incoming]).roles.any
      (fun r => r.party == 1 && r.docket == 1)) = true ∧
    (add_parties_and_attorneys c5Ctx c5Store 1 [c5Incoming]).parties
      = c5Store.parties := by decide

/-- Claim C5 as amended: after the reconciliation's disassociation pass on
a non-empty incoming party list: when the list contains no termination
markers, the PartyType and Role join rows of previously terminated
parties and attorneys are left intact; when the list does contain
termination markers, the docket's PartyType rows are kept exactly for the
parties updated in the pass, and its Role rows exactly for the attorneys
updated in the pass — so an omitted terminated party's PartyType rows
are deleted, and its Role rows are deleted unless their attorney was also
updated (an attorney shared with a retained party).  Party and Attorney
rows are never deleted. -/
theorem claim_C5_amended (s : PartyStore) (d : Nat)
    (parties : List PartyDictNorm) (pP pA : List Nat)
    (hptP : ∀ pt ∈ s.party_types, ∃ p ∈ s.parties, p.pk = pt.party) :
    ((disassociate_extraneous_entities s d parties pP pA).parties
      = s.parties) ∧
    ((disassociate_extraneous_entities s d parties pP pA).attorneys
      = s.attorneys) ∧
    (check_json_for_terminated_entities parties = true →
      (disassociate_extraneous_entities s d parties pP pA).party_types
        = s.party_types.filter (fun pt =>
            pt.docket != d || pP.contains pt.party) ∧
      (disassociate_extraneous_entities s d parties pP pA).roles
        = s.roles.filter (fun r =>
            r.docket != d || pA.contains r.attorney)) ∧
    (check_json_for_terminated_entities parties = false →
      (∀ pt ∈ s.party_types, pt.docket = d → pt.date_terminated.isSome →
        pt ∈ (disassociate_extraneous_entities s d parties pP
          pA).party_types) ∧
      (∀ r ∈ s.roles, r.docket = d →
        (get_terminated_entities s d).1.contains r.party = true →
        r ∈ (disassociate_extraneous_entities s d parties pP pA).roles) ∧
      (∀ r ∈ s.roles, r.docket = d →
        (get_terminated_entities s d).2.contains r.attorney = true →
        r ∈ (disassociate_extraneous_entities s d parties pP pA).roles)) := by
  refine ⟨rfl, rfl, ?_, ?_⟩
  · intro hck
    unfold disassociate_extraneous_entities
    simp only [hck, Bool.not_true, Bool.false_eq_true, if_false]
    refine ⟨by first | rfl | trivial, ?_⟩
    apply List.filter_congr
    intro r _
    simp
  · intro hck
    unfold disassociate_extraneous_entities
    simp only [hck, Bool.not_false, if_true]
    refine ⟨?_, ?_, ?_⟩
    · intro pt hpt hdk hterm
      obtain ⟨p, hpmem, hppk⟩ := hptP pt hpt
      have hptp : pt.party ∈ (get_terminated_entities s d).1 := by
        unfold get_terminated_entities
        refine List.mem_map.mpr ⟨p, ?_, hppk⟩
        refine List.mem_filter.mpr ⟨hpmem, ?_⟩
        refine List.any_eq_true.mpr ⟨pt, hpt, ?_⟩
        simp [hdk, hppk.symm, hterm]
      have htp : ¬((get_terminated_entities s d).1.isEmpty = true) := by
        intro hemp
        rw [List.isEmpty_iff] at hemp
        rw [hemp] at hptp
        cases hptp
      split
      · try dsimp only
        refine List.mem_filter.mpr ⟨hpt, ?_⟩
        refine bor_true_right ?_
        exact List.elem_eq_true_of_mem
          (List.mem_append_right _ hptp)
      · rename_i hcond
        have hor : (!(get_terminated_entities s d).1.isEmpty ||
            !(get_terminated_entities s d).2.isEmpty) = true := by
          refine bor_true_left ?_
          simpa using htp
        exact absurd hor hcond
    · intro r hr hdk hterm
      have hmem : r.party ∈ (get_terminated_entities s d).1 :=
        List.mem_of_elem_eq_true hterm
      have htp : ¬((get_terminated_entities s d).1.isEmpty = true) := by
        intro hemp
        rw [List.isEmpty_iff] at hemp
        rw [hemp] at hmem
        cases hmem
      split
      · try dsimp only
        refine List.mem_filter.mpr ⟨hr, ?_⟩
        exact bor_true_right hterm
      · rename_i hcond
        have hor : (!(get_terminated_entities s d).1.isEmpty ||
            !(get_terminated_entities s d).2.isEmpty) = true := by
          refine bor_true_left ?_
          simpa using htp
        exact absurd hor hcond
    · intro r hr hdk hterm
      have hmem : r.attorney ∈ (get_terminated_entities s d).2 :=
        List.mem_of_elem_eq_true hterm
      have hta : ¬((get_terminated_entities s d).2.isEmpty = true) := by
        intro hemp
        rw [List.isEmpty_iff] at hemp
        rw [hemp] at hmem
        cases hmem
      split
      · try dsimp only
        refine List.mem_filter.mpr ⟨hr, ?_⟩
        refine bor_true_left ?_
        refine bor_true_right ?_
        exact List.elem_eq_true_of_mem
          (List.mem_append_right _ hmem)
      · rename_i hcond
        have hor : (!(get_terminated_entities s d).1.isEmpty ||
            !(get_terminated_entities s d).2.isEmpty) = true := by
          refine bor_true_right ?_
          simpa using hta
        exact absurd hor hcond

/-- Witness for the amended C5: reconciling the fixture docket with a
party list that has no termination markers and omits the terminated party
P leaves P's terminated PartyType row intact. -/
theorem claim_C5_witness :
    c5PartyTypeP ∈ (disassociate_extraneous_entities c5Store 1 c5wParties
      [2] [5]).party_types :=
  ((claim_C5_amended c5Store 1 c5wParties [2] [5]
      (by decide)).2.2.2 (by decide)).1 c5PartyTypeP (by decide)
    (by decide) (by decide)

/-- Rows of a store with distinct primary keys are determined by their
primary key. -/
theorem rds_pk_inj {l : List RECAPDocument}
    (hnd : (l.map RECAPDocument.pk).Nodup) {r1 r2 : RECAPDocument}
    (h1 : r1 ∈ l) (h2 : r2 ∈ l) (he : r1.pk = r2.pk) : r1 = r2 :=
  List.inj_on_of_nodup_map hnd h1 h2 he

/-- A filter whose predicate holds exactly at one member of a
distinct-key row list yields that singleton. -/
theorem filter_eq_singleton_of_unique {l : List RECAPDocument}
    {p : RECAPDocument → Bool} {x : RECAPDocument}
    (hnd : (l.map RECAPDocument.pk).Nodup) (hx : x ∈ l)
    (hiff : ∀ r ∈ l, (p r = true ↔ r = x)) : l.filter p = [x] := by
  induction l with
  | nil => cases hx
  | cons a t ih =>
    rcases List.mem_cons.mp hx with heq | hxt
    · subst heq
      have hpa : p x = true := (hiff x (List.mem_cons_self x t)).mpr rfl
      rw [List.filter_cons_of_pos hpa]
      have hnil : t.filter p = [] := by
        rw [List.filter_eq_nil_iff]
        intro b hb hpb
        have hbx : b = x := (hiff b (List.mem_cons_of_mem x hb)).mp hpb
        subst hbx
        rw [List.map_cons, List.nodup_cons] at hnd
        exact hnd.1 (List.mem_map.mpr ⟨b, hb, rfl⟩)
      rw [hnil]
    · have hpa : p a = false := by
        rcases hc : p a with _ | _
        · rfl
        · have hax : a = x := (hiff a (List.mem_cons_self a t)).mp hc
          subst hax
          rw [List.map_cons, List.nodup_cons] at hnd
          exact absurd (List.mem_map.mpr ⟨a, hxt, rfl⟩) hnd.1
      rw [List.filter_cons_of_neg (by simp [hpa])]
      rw [List.map_cons, List.nodup_cons] at hnd
      exact ih hnd.2 hxt (fun r hr => hiff r (List.mem_cons_of_mem a hr))

/-- The newest-row fold picks its seed or a list member. -/
theorem latest_foldl_choice (t : List RECAPDocument) :
    ∀ b : RECAPDocument,
      (t.foldl (fun b x => if b.date_created < x.date_created then x else b)
        b) = b ∨
      (t.foldl (fun b x => if b.date_created < x.date_created then x else b)
        b) ∈ t := by
  induction t with
  | nil => intro b; exact Or.inl rfl
  | cons a t ih =>
    intro b
    rw [List.foldl_cons]
    rcases ih (if b.date_created < a.date_created then a else b) with h | h
    · rw [h]
      split
      · exact Or.inr (List.mem_cons_self a t)
      · exact Or.inl rfl
    · exact Or.inr (List.mem_cons_of_mem a h)

/-- The newest row of a list is a member of it. -/
theorem latestCreated_mem {l : List RECAPDocument} {r : RECAPDocument}
    (h : latestCreated l = some r) : r ∈ l := by
  cases l with
  | nil => cases h
  | cons a t =>
    unfold latestCreated at h
    rcases latest_foldl_choice t a with hc | hc <;>
      rw [Option.some.injEq] at h <;> rw [← h]
    · rw [hc]
      exact List.mem_cons_self a t
    · exact List.mem_cons_of_mem a hc

/-- A main-document lookup over a store with replaced document rows. -/
theorem mainRdFilter_set_rds (s : Store) (L : List RECAPDocument)
    (court_id : String) (pcid : Option String) (i : String) :
    mainRdFilter { s with rds := L } court_id pcid i
      = L.filter (fun r =>
          r.pacer_doc_id == i && rdInCaseScope s court_id pcid r) := rfl

/-- After `keep_latest_rd_document` cleans a non-empty ambiguous lookup,
re-running the lookup returns exactly the kept row: the embedding of the
clean-then-re-get recovery of mergers.py lines 1730-1734. -/
theorem keep_latest_spec (s : Store) (court_id : String)
    (pcid : Option String) (doc_id : String)
    (hwf : (s.rds.map RECAPDocument.pk).Nodup)
    (hne : mainRdFilter s court_id pcid doc_id ≠ []) :
    ∃ s' kept,
      keep_latest_rd_document s (mainRdFilter s court_id pcid doc_id)
        = some (s', kept) ∧
      mainRdFilter s' court_id pcid doc_id = [kept] := by
  have hchosen : ∃ kept,
      (match latestCreated ((mainRdFilter s court_id pcid
          doc_id).filter (fun r => r.is_available &&
            r.filepath_local != "")) with
        | some r => some r
        | none => latestCreated (mainRdFilter s court_id pcid doc_id))
        = some kept ∧ kept ∈ mainRdFilter s court_id pcid doc_id := by
    cases hpdf : latestCreated ((mainRdFilter s court_id pcid
        doc_id).filter (fun r => r.is_available &&
          r.filepath_local != "")) with
    | some r =>
      exact ⟨r, rfl, (List.mem_filter.mp (latestCreated_mem hpdf)).1⟩
    | none =>
      cases hq : latestCreated (mainRdFilter s court_id pcid doc_id) with
      | none =>
        cases hl : mainRdFilter s court_id pcid doc_id with
        | nil => exact absurd hl hne
        | cons a t =>
          rw [hl] at hq
          cases hq
      | some r => exact ⟨r, rfl, latestCreated_mem hq⟩
  obtain ⟨kept, hch, hkeptmem⟩ := hchosen
  have hkeptrds : kept ∈ s.rds := (List.mem_filter.mp hkeptmem).1
  have hkeptpred : (kept.pacer_doc_id == doc_id &&
      rdInCaseScope s court_id pcid kept) = true :=
    (List.mem_filter.mp hkeptmem).2
  refine ⟨{ s with rds := s.rds.filter (fun r =>
      !(((mainRdFilter s court_id pcid doc_id).map
        RECAPDocument.pk).contains r.pk) || r.pk == kept.pk) }, kept,
      ?_, ?_⟩
  · simp only [keep_latest_rd_document]
    rw [hch]
  · rw [mainRdFilter_set_rds, List.filter_filter]
    refine filter_eq_singleton_of_unique hwf hkeptrds ?_
    intro r hr
    constructor
    · intro hp
      rw [Bool.and_eq_true] at hp
      obtain ⟨hmain, hkeep⟩ := hp
      have hrqs : r ∈ mainRdFilter s court_id pcid doc_id :=
        List.mem_filter.mpr ⟨hr, hmain⟩
      have hcont : ((mainRdFilter s court_id pcid doc_id).map
          RECAPDocument.pk).contains r.pk = true :=
        List.elem_eq_true_of_mem (List.mem_map.mpr ⟨r, hrqs, rfl⟩)
      rw [Bool.or_eq_true] at hkeep
      rcases hkeep with hkeep | hkeep
      · rw [hcont] at hkeep
        cases hkeep
      · exact rds_pk_inj hwf hr hkeptrds (by simpa using hkeep)
    · intro hrx
      subst hrx
      rw [Bool.and_eq_true]
      refine ⟨hkeptpred, ?_⟩
      refine bor_true_right ?_
      simp

/-- `keep_latest_rd_document` on a non-empty queryset succeeds and keeps
the document rows of other stores' tables untouched. -/
theorem fallback_not_found (s : Store) (court_id : String)
    (pcid : Option String) (orig_doc_id : String) :
    ∀ (atts : List AttachmentDict) (cur : String),
      (∀ i ∈ stickyIds cur atts,
        mainRdFilter s court_id pcid i = []) →
      resolveFallback s court_id pcid orig_doc_id atts cur
        = .error .doesNotExist := by
  intro atts
  induction atts with
  | nil => intro cur _; rfl
  | cons a rest ih =>
    intro cur hall
    unfold resolveFallback
    dsimp only
    have hhead : mainRdFilter s court_id pcid
        (if optStrTruthy a.pacer_doc_id then a.pacer_doc_id.getD cur
         else cur) = [] := by
      refine hall _ ?_
      unfold stickyIds
      exact List.mem_cons_self _ _
    rw [hhead]
    refine ih _ ?_
    intro i hi
    refine hall i ?_
    unfold stickyIds
    exact List.mem_cons_of_mem _ hi

/-- Every error of the legacy-feed fallback loop is an ambiguity without
an external case id or an everywhere-empty lookup. -/
theorem fallback_err_characterize (s : Store) (court_id : String)
    (pcid : Option String) (orig_doc_id : String)
    (hwf : (s.rds.map RECAPDocument.pk).Nodup) :
    ∀ (atts : List AttachmentDict) (cur : String) (e : MergeErr),
      resolveFallback s court_id pcid orig_doc_id atts cur = .error e →
      (e = .multipleObjectsReturned ∧ optStrTruthy pcid = false) ∨
      (e = .doesNotExist ∧
        ∀ i ∈ stickyIds cur atts, mainRdFilter s court_id pcid i = []) := by
  intro atts
  induction atts with
  | nil =>
    intro cur e h
    unfold resolveFallback at h
    rw [Except.error.injEq] at h
    refine Or.inr ⟨h.symm, ?_⟩
    intro i hi
    cases hi
  | cons a rest ih =>
    intro cur e h
    unfold resolveFallback at h
    dsimp only at h
    cases hq : mainRdFilter s court_id pcid
        (if optStrTruthy a.pacer_doc_id then a.pacer_doc_id.getD cur
         else cur) with
    | nil =>
      rw [hq] at h
      rcases ih _ e h with hl | ⟨he, hall⟩
      · exact Or.inl hl
      · refine Or.inr ⟨he, ?_⟩
        intro i hi
        unfold stickyIds at hi
        rcases List.mem_cons.mp hi with heq | hit
        · rw [heq]
          exact hq
        · exact hall i hit
    | cons r1 t1 =>
      cases t1 with
      | nil =>
        rw [hq] at h
        cases h
      | cons r2 t2 =>
        rw [hq] at h
        dsimp only at h
        by_cases hp : optStrTruthy pcid = true
        · rw [if_pos hp] at h
          obtain ⟨s', kept, hkl, hre⟩ := keep_latest_spec s court_id pcid
            (if optStrTruthy a.pacer_doc_id then a.pacer_doc_id.getD cur
             else cur) hwf (by rw [hq]; intro hc; cases hc)
          rw [hq] at hkl
          rw [hkl] at h
          dsimp only at h
          rw [hre] at h
          cases h
        · rw [if_neg hp] at h
          rw [Except.error.injEq] at h
          exact Or.inl ⟨h.symm, by simpa using hp⟩

/-- Claim C9: `merge_attachment_page_data` propagates an exception in
exactly two main-document-resolution failure cases: (1) no document
matches the PACER document id and none can be found via any entry of the
incoming attachment list (the DoesNotExist is fatal), and (2) the
main-document lookup returns multiple rows and no external case id is
available to narrow them; whenever an external case id is available,
ambiguity is resolved locally by duplicate cleanup and the merge
proceeds.  Stated for non-ACMS attachment pages (the code paths of
mergers.py lines 1724-1797), over any well-formed store. -/
theorem claim_C9 (isLong : String → Bool)
    (convertSize : String → Option Nat) (s : Store) (court_id : String)
    (court_is_appellate : Bool) (pcid : Option String) (doc_id : String)
    (document_number : Option String) (atts : List AttachmentDict)
    (debug : Bool) (hwf : (s.rds.map RECAPDocument.pk).Nodup) :
    ((mainRdFilter s court_id pcid doc_id = [] →
      (∀ i ∈ stickyIds doc_id atts,
        mainRdFilter s court_id pcid i = []) →
      resolve_main_rd s court_id pcid doc_id atts false
        = .error .doesNotExist) ∧
    (2 ≤ (mainRdFilter s court_id pcid doc_id).length →
      optStrTruthy pcid = false →
      resolve_main_rd s court_id pcid doc_id atts false
        = .error .multipleObjectsReturned) ∧
    (2 ≤ (mainRdFilter s court_id pcid doc_id).length →
      optStrTruthy pcid = true →
      ∃ out, resolve_main_rd s court_id pcid doc_id atts false
        = .ok out) ∧
    (∀ e, resolve_main_rd s court_id pcid doc_id atts false = .error e →
      (e = .multipleObjectsReturned ∧ optStrTruthy pcid = false) ∨
      (e = .doesNotExist ∧ mainRdFilter s court_id pcid doc_id = [] ∧
        ∀ i ∈ stickyIds doc_id atts,
          mainRdFilter s court_id pcid i = [])) ∧
    (∀ e, resolve_main_rd s court_id pcid doc_id atts false = .error e →
      merge_attachment_page_data isLong convertSize s court_id
        court_is_appellate pcid doc_id document_number atts debug false
        = .error e)) := by
  refine ⟨?_, ?_, ?_, ?_, ?_⟩
  · intro hempty hall
    unfold resolve_main_rd
    simp only [Bool.false_eq_true, if_false, hempty]
    exact fallback_not_found s court_id pcid doc_id atts doc_id hall
  · intro hlen hp
    unfold resolve_main_rd
    simp only [Bool.false_eq_true, if_false]
    cases hq : mainRdFilter s court_id pcid doc_id with
    | nil => rw [hq] at hlen; cases hlen
    | cons r1 t1 =>
      cases t1 with
      | nil =>
        rw [hq] at hlen
        exact absurd hlen (by simp)
      | cons r2 t2 =>
        dsimp only
        rw [if_neg (by simp [hp])]
  · intro hlen hp
    unfold resolve_main_rd
    simp only [Bool.false_eq_true, if_false]
    cases hq : mainRdFilter s court_id pcid doc_id with
    | nil => rw [hq] at hlen; cases hlen
    | cons r1 t1 =>
      cases t1 with
      | nil =>
        rw [hq] at hlen
        exact absurd hlen (by simp)
      | cons r2 t2 =>
        dsimp only
        rw [if_pos hp]
        obtain ⟨s', kept, hkl, hre⟩ :=
          keep_latest_spec s court_id pcid doc_id hwf
            (by rw [hq]; intro hc; cases hc)
        rw [hq] at hkl
        rw [hkl]
        dsimp only
        rw [hre]
        exact ⟨_, rfl⟩
  · intro e h
    unfold resolve_main_rd at h
    simp only [Bool.false_eq_true, if_false] at h
    cases hq : mainRdFilter s court_id pcid doc_id with
    | nil =>
      rw [hq] at h
      rcases fallback_err_characterize s court_id pcid doc_id hwf atts
          doc_id e h with hl | ⟨he, hall⟩
      · exact Or.inl hl
      · exact Or.inr ⟨he, rfl, hall⟩
    | cons r1 t1 =>
      cases t1 with
      | nil =>
        rw [hq] at h
        cases h
      | cons r2 t2 =>
        rw [hq] at h
        dsimp only at h
        by_cases hp : optStrTruthy pcid = true
        · rw [if_pos hp] at h
          obtain ⟨s', kept, hkl, hre⟩ :=
            keep_latest_spec s court_id pcid doc_id hwf
              (by rw [hq]; intro hc; cases hc)
          rw [hq] at hkl
          rw [hkl] at h
          dsimp only at h
          rw [hre] at h
          cases h
        · rw [if_neg hp] at h
          rw [Except.error.injEq] at h
          exact Or.inl ⟨h.symm, by simpa using hp⟩
  · intro e h
    unfold merge_attachment_page_data
    rw [h]

/-- Witness for C9: on an empty store no document matches, no attachment
entry can supply one, and the resolution error is the propagated
DoesNotExist. -/
theorem claim_C9_witness :
    resolve_main_rd { dockets := [], entries := [], rds := [], nextPk := 0 }
      "canb" none "X" [] false = .error .doesNotExist :=
  (claim_C9 (fun _ => false) (fun _ => none)
      { dockets := [], entries := [], rds := [], nextPk := 0 } "canb"
      false none "X" none [] false (by decide)).1 (by decide)
    (by intro i hi; cases hi)

/-- Filtering with a stronger predicate yields a sublist of filtering
with a weaker one. -/
theorem filter_sublist_of_imp {α : Type} {q pe : α → Bool}
    (h : ∀ r, q r = true → pe r = true) :
    ∀ l : List α, List.Sublist (l.filter q) (l.filter pe) := by
  intro l
  induction l with
  | nil => exact List.Sublist.refl _
  | cons a t ih =>
    by_cases hq : q a = true
    · rw [List.filter_cons_of_pos hq, List.filter_cons_of_pos (h a hq)]
      exact ih.cons₂ a
    · rw [List.filter_cons_of_neg (by simpa using hq)]
      by_cases hpe : pe a = true
      · rw [List.filter_cons_of_pos hpe]
        exact ih.cons a
      · rw [List.filter_cons_of_neg (by simpa using hpe)]
        exact ih

/-- A row found by primary key in a distinct-key list is the member
itself. -/
theorem find_pk_of_mem_nodup {l : List RECAPDocument} {r : RECAPDocument}
    (h : r ∈ l) (hnd : (l.map RECAPDocument.pk).Nodup) :
    l.find? (fun x => x.pk == r.pk) = some r := by
  induction l with
  | nil => cases h
  | cons a t ih =>
    rw [List.map_cons, List.nodup_cons] at hnd
    rcases List.mem_cons.mp h with heq | hmem
    · subst heq
      exact List.find?_cons_of_pos _ (by simp)
    · have hne : (a.pk == r.pk) = false := by
        rcases hc : a.pk == r.pk with _ | _
        · rfl
        · have : a.pk = r.pk := by simpa using hc
          rw [this] at hnd
          exact absurd (List.mem_map.mpr ⟨r, hmem, rfl⟩) hnd.1
      rw [List.find?_cons_of_neg _ (by simp [hne])]
      exact ih hmem hnd.2

/-- The attachment field updates preserve the row's primary key. -/
theorem attFieldUpdates_pk (isLong : String → Bool)
    (convertSize : String → Option Nat) (appellate : Bool)
    (orig docnum : String) (a : AttachmentDict) (rd0 : RECAPDocument) :
    (attFieldUpdates isLong convertSize appellate orig docnum a rd0).pk
      = rd0.pk := by
  unfold attFieldUpdates
  dsimp only
  repeat' split
  all_goals rfl

/-- The attachment field updates preserve the row's document kind. -/
theorem attFieldUpdates_type (isLong : String → Bool)
    (convertSize : String → Option Nat) (appellate : Bool)
    (orig docnum : String) (a : AttachmentDict) (rd0 : RECAPDocument) :
    (attFieldUpdates isLong convertSize appellate orig docnum a
      rd0).document_type = rd0.document_type := by
  unfold attFieldUpdates
  dsimp only
  repeat' split
  all_goals rfl

/-- The attachment field updates preserve the row's attachment number. -/
theorem attFieldUpdates_attnum (isLong : String → Bool)
    (convertSize : String → Option Nat) (appellate : Bool)
    (orig docnum : String) (a : AttachmentDict) (rd0 : RECAPDocument) :
    (attFieldUpdates isLong convertSize appellate orig docnum a
      rd0).attachment_number = rd0.attachment_number := by
  unfold attFieldUpdates
  dsimp only
  repeat' split
  all_goals rfl

/-- The attachment field updates preserve the row's entry. -/
theorem attFieldUpdates_entry (isLong : String → Bool)
    (convertSize : String → Option Nat) (appellate : Bool)
    (orig docnum : String) (a : AttachmentDict) (rd0 : RECAPDocument) :
    (attFieldUpdates isLong convertSize appellate orig docnum a
      rd0).docket_entry = rd0.docket_entry := by
  unfold attFieldUpdates
  dsimp only
  repeat' split
  all_goals rfl

/-- The attachment field updates store the attachment's truthy PACER
document id on the row (mergers.py lines 1938-1939). -/
theorem attFieldUpdates_doc_id (isLong : String → Bool)
    (convertSize : String → Option Nat) (appellate : Bool)
    (orig docnum : String) (a : AttachmentDict) (rd0 : RECAPDocument)
    (h : optStrTruthy a.pacer_doc_id = true) :
    (attFieldUpdates isLong convertSize appellate orig docnum a
      rd0).pacer_doc_id = a.pacer_doc_id.getD "" := by
  unfold attFieldUpdates
  dsimp only
  repeat' split
  all_goals simp_all

/-- The attachment loop over a single attachment is its single
iteration. -/
theorem attLoop_singleton {isLong : String → Bool}
    {convertSize : String → Option Nat} {appellate : Bool}
    {orig docnum : String} {dePk : Nat} {st st' : AttLoopState}
    {a : AttachmentDict}
    (h : processAttachment isLong convertSize appellate orig docnum dePk
      st a = .ok st') :
    attLoop isLong convertSize appellate orig docnum dePk st [a]
      = .ok st' := by
  unfold attLoop
  rw [h]
  rfl

/-- An attachment failing a skip check is left unprocessed: the loop
iteration returns its state unchanged (mergers.py lines 1829-1844). -/
theorem processAttachment_skip (isLong : String → Bool)
    (convertSize : String → Option Nat) (appellate : Bool)
    (orig docnum : String) (dePk : Nat) (st : AttLoopState)
    (a : AttachmentDict)
    (h : attSanityFails a = true ∨ attPageCountSkip a = true) :
    processAttachment isLong convertSize appellate orig docnum dePk st a
      = .ok st := by
  unfold processAttachment
  by_cases h1 : attSanityFails a = true
  · rw [if_pos h1]
  · rw [if_neg h1]
    rcases h with h | h
    · exact absurd h h1
    · rw [if_pos h]

/-- An attachment passing both skip checks is processed: the loop
iteration succeeds (against a store where neither lookup is ambiguous)
and appends exactly one row to the affected list (mergers.py lines
1846-1932). -/
theorem processAttachment_processed (isLong : String → Bool)
    (convertSize : String → Option Nat) (appellate : Bool)
    (orig docnum : String) (dePk : Nat) (st : AttLoopState)
    (a : AttachmentDict) (m : RECAPDocument)
    (hns : attSanityFails a = false) (hnp : attPageCountSkip a = false)
    (hm : getRd st.store st.mainPk = some m)
    (hsub1 : (st.store.rds.filter
      (attParamsMatch dePk docnum a)).length ≤ 1)
    (hsub2 : (st.store.rds.filter (attDocIdParamsMatch isLong appellate
      dePk docnum a)).length ≤ 1) :
    ∃ st', processAttachment isLong convertSize appellate orig docnum dePk
        st a = .ok st' ∧
      ∃ p, st'.affectedPks = st.affectedPks ++ [p] := by
  unfold processAttachment
  rw [if_neg (by simp [hns]), if_neg (by simp [hnp]), hm]
  dsimp only
  by_cases hpb : (appellate && a.pacer_doc_id == some m.pacer_doc_id &&
      !st.main_rd_to_att) = true
  · rw [if_pos hpb]
    exact ⟨_, rfl, _, rfl⟩
  · rw [if_neg hpb]
    cases hf1 : st.store.rds.filter (attParamsMatch dePk docnum a) with
    | cons x t =>
      cases t with
      | nil => exact ⟨_, rfl, _, rfl⟩
      | cons y t2 =>
        rw [hf1] at hsub1
        simp at hsub1
    | nil =>
      cases hf2 : st.store.rds.filter
          (attDocIdParamsMatch isLong appellate dePk docnum a) with
      | cons x t =>
        cases t with
        | nil => exact ⟨_, rfl, _, rfl⟩
        | cons y t2 =>
          rw [hf2] at hsub2
          simp at hsub2
      | nil => exact ⟨_, rfl, _, rfl⟩

/-- Duplicate cleanup is the identity on a store whose entry holds no two
documents sharing a PACER document id. -/
theorem cleanup_eq_self (s : Store) (dePk : Nat)
    (atts : List AttachmentDict)
    (h : ∀ r ∈ s.rds, r.docket_entry = dePk →
      countDocId (s.rds.filter (fun x => x.docket_entry == dePk))
        r.pacer_doc_id ≤ 1) :
    clean_duplicate_attachment_entries s dePk atts = s := by
  unfold clean_duplicate_attachment_entries
  dsimp only
  have h1 : s.rds.filter (fun r =>
      !(r.docket_entry == dePk &&
        decide (2 ≤ countDocId (s.rds.filter
          (fun x => x.docket_entry == dePk)) r.pacer_doc_id) &&
        atts.any (fun a => a.pacer_doc_id == some r.pacer_doc_id &&
          a.attachment_number != r.attachment_number))) = s.rds := by
    rw [List.filter_eq_self]
    intro r hr
    by_cases hdk : (r.docket_entry == dePk) = true
    · have hle := h r hr (by simpa using hdk)
      have hdec : decide (2 ≤ countDocId (s.rds.filter
          (fun x => x.docket_entry == dePk)) r.pacer_doc_id) = false := by
        simp only [decide_eq_false_iff_not]
        omega
      simp [hdec]
    · simp [Bool.not_eq_true] at hdk
      simp [hdk]
  rw [h1]
  have h2 : s.rds.filter (fun r =>
      r.docket_entry != dePk ||
      (decide (countDocId (s.rds.filter
          (fun x => x.docket_entry == dePk)) r.pacer_doc_id ≤ 1) ||
        (keepChoice ((s.rds.filter (fun x => x.docket_entry == dePk)).filter
            (fun x => x.pacer_doc_id == r.pacer_doc_id))).any
          (fun k => k.pk == r.pk))) = s.rds := by
    rw [List.filter_eq_self]
    intro r hr
    by_cases hdk : (r.docket_entry == dePk) = true
    · have hle := h r hr (by simpa using hdk)
      refine bor_true_right ?_
      refine bor_true_left ?_
      simpa using hle
    · refine bor_true_left ?_
      simp [Bool.not_eq_true] at hdk
      simp [hdk]
  rw [h2]

/-- Claim C4: for an appellate court, when `merge_attachment_page_data`
resolves a main document with PACER document id X and the parsed
attachment list holds an entry with attachment index 0 and document id X,
the resulting ATTACHMENT #0 is the very same row (same primary key) as
the former main document, reclassified in place; no row is created, and
the entry ends with a single row — in particular no second row with id X
(mergers.py lines 1850-1860).  Stated for a call resolving its main
document directly against an entry holding only that document. -/
theorem claim_C4 (isLong : String → Bool)
    (convertSize : String → Option Nat) (s : Store) (court_id : String)
    (pcid : Option String) (x : String) (docnum : Option String)
    (a : AttachmentDict) (r0 : RECAPDocument)
    (h1 : mainRdFilter s court_id pcid x = [r0])
    (h2 : s.rds.filter (fun r => r.docket_entry == r0.docket_entry)
      = [r0])
    (hwf : (s.rds.map RECAPDocument.pk).Nodup)
    (hX : r0.pacer_doc_id = x)
    (ha0 : a.attachment_number = some 0)
    (haid : a.pacer_doc_id = some x)
    (hXne : x ≠ "") :
    ∃ s',
      merge_attachment_page_data isLong convertSize s court_id true
        pcid x docnum [a] false false
        = .ok (s', [r0.pk], [], r0.docket_entry) ∧
      (∃ r' ∈ s'.rds, r'.pk = r0.pk ∧
        r'.document_type = DocumentType.attachment ∧
        r'.attachment_number = some 0 ∧ r'.pacer_doc_id = x) ∧
      (∀ r ∈ s'.rds, r.docket_entry = r0.docket_entry →
        r.pk = r0.pk) := by
  have hr0mem : r0 ∈ s.rds := by
    have : r0 ∈ s.rds.filter
        (fun r => r.docket_entry == r0.docket_entry) := by
      rw [h2]
      exact List.mem_cons_self _ _
    exact (List.mem_filter.mp this).1
  have hres : resolve_main_rd s court_id pcid x [a] false
      = .ok { store := s, main_rd := r0, createdPks := [] } := by
    unfold resolve_main_rd
    simp only [Bool.false_eq_true, if_false]
    rw [h1]
  have htty : optStrTruthy a.pacer_doc_id = true := by
    rw [haid]
    simpa [optStrTruthy] using hXne
  have hns : attSanityFails a = false := by
    unfold attSanityFails
    rw [ha0, htty]
    rfl
  have hnp : attPageCountSkip a = false := by
    unfold attPageCountSkip
    rw [ha0]
    simp
  have hm : getRd s r0.pk = some r0 := find_pk_of_mem_nodup hr0mem hwf
  unfold merge_attachment_page_data
  rw [hres]
  dsimp only
  simp only [Bool.false_eq_true, Bool.not_false, if_false, if_true]
  generalize (match docnum with
    | none => r0.document_number
    | some n => n : String) = dn
  have hproc : processAttachment isLong convertSize true x dn
      r0.docket_entry
      { store := s, mainPk := r0.pk, main_rd_to_att := false,
        affectedPks := [], createdPks := [] } a
      = .ok (attCommonUpdates isLong convertSize true x dn
        { store := s, mainPk := r0.pk, main_rd_to_att := true,
          affectedPks := [], createdPks := [] } a (promotedRd a r0)
        false) := by
    unfold processAttachment
    rw [if_neg (by simp [hns]), if_neg (by simp [hnp]), hm]
    dsimp only
    rw [if_pos (by simp [haid, hX])]
  simp only [attLoop_singleton hproc]
  dsimp only [attCommonUpdates]
  simp only [Bool.false_eq_true, if_false, Bool.not_false, if_true,
    List.nil_append, List.append_nil]
  generalize hg : attFieldUpdates isLong convertSize true x dn a
    (promotedRd a r0) = rd5
  have hpk5 : rd5.pk = r0.pk := by
    rw [← hg, attFieldUpdates_pk]
    rfl
  have hty5 : rd5.document_type = DocumentType.attachment := by
    rw [← hg, attFieldUpdates_type]
    rfl
  have han5 : rd5.attachment_number = some 0 := by
    rw [← hg, attFieldUpdates_attnum]
    exact ha0
  have hid5 : rd5.pacer_doc_id = x := by
    rw [← hg, attFieldUpdates_doc_id isLong convertSize true x dn a
      (promotedRd a r0) htty, haid]
    rfl
  have hde5 : rd5.docket_entry = r0.docket_entry := by
    rw [← hg, attFieldUpdates_entry]
    rfl
  have hmem5 : rd5 ∈ (updateRd s rd5).rds := by
    unfold updateRd
    dsimp only
    refine List.mem_map.mpr ⟨r0, hr0mem, ?_⟩
    dsimp only
    rw [if_pos (by simp [hpk5])]
  have hndmap : ((updateRd s rd5).rds.map RECAPDocument.pk).Nodup := by
    unfold updateRd
    dsimp only
    rw [List.map_map]
    have hcg : s.rds.map
        (RECAPDocument.pk ∘ fun y => if y.pk == rd5.pk then rd5 else y)
        = s.rds.map RECAPDocument.pk := by
      apply List.map_congr_left
      intro y hy
      dsimp only [Function.comp]
      by_cases hc : (y.pk == rd5.pk) = true
      · rw [if_pos hc]
        have hyp : y.pk = rd5.pk := by simpa using hc
        exact hyp.symm
      · rw [if_neg hc]
    rw [hcg]
    exact hwf
  have hentry' : (updateRd s rd5).rds.filter
      (fun r => r.docket_entry == r0.docket_entry) = [rd5] := by
    apply filter_eq_singleton_of_unique hndmap hmem5
    intro r hr
    constructor
    · intro hrde
      unfold updateRd at hr
      dsimp only at hr
      obtain ⟨y, hy, hfy⟩ := List.mem_map.mp hr
      by_cases hc : (y.pk == rd5.pk) = true
      · rw [if_pos hc] at hfy
        exact hfy.symm
      · rw [if_neg hc] at hfy
        subst hfy
        have hyf : y ∈ s.rds.filter
            (fun r => r.docket_entry == r0.docket_entry) :=
          List.mem_filter.mpr ⟨hy, hrde⟩
        rw [h2] at hyf
        have hyr0 : y = r0 := by simpa using hyf
        have hcontra : (y.pk == rd5.pk) = true := by
          simp [hyr0, hpk5]
        exact absurd hcontra hc
    · intro hre
      subst hre
      simp [hde5]
  have hclean : clean_duplicate_attachment_entries (updateRd s rd5)
      r0.docket_entry [a] = updateRd s rd5 := by
    apply cleanup_eq_self
    intro r hr hrde
    unfold countDocId
    rw [hentry']
    exact List.length_filter_le _ _
  rw [hclean, hpk5]
  refine ⟨_, rfl, ⟨rd5, hmem5, hpk5, hty5, han5, hid5⟩, ?_⟩
  intro r hr hrde
  have hrf : r ∈ (updateRd s rd5).rds.filter
      (fun q => q.docket_entry == r0.docket_entry) :=
    List.mem_filter.mpr ⟨hr, by simp [hrde]⟩
  rw [hentry'] at hrf
  have hr5 : r = rd5 := by simpa using hrf
  rw [hr5, hpk5]

/-- Witness for claim C4: the fixture appellate main document (pk 3, id X)
confronted with an index-0 attachment carrying id X is reclassified in
place and no row is created. -/
theorem claim_C4_witness :
    ∃ s',
      merge_attachment_page_data (fun _ => false) (fun _ => none) c4Store
        "ca9" true (some "100") "X" none [c4Att] false false
        = .ok (s', [c4MainRd.pk], [], c4MainRd.docket_entry) ∧
      (∃ r' ∈ s'.rds, r'.pk = c4MainRd.pk ∧
        r'.document_type = DocumentType.attachment ∧
        r'.attachment_number = some 0 ∧ r'.pacer_doc_id = "X") ∧
      (∀ r ∈ s'.rds, r.docket_entry = c4MainRd.docket_entry →
        r.pk = c4MainRd.pk) :=
  claim_C4 (fun _ => false) (fun _ => none) c4Store "ca9" (some "100")
    "X" none c4Att c4MainRd (by decide) (by decide) (by decide)
    (by decide) (by decide) (by decide) (by decide)

/-- Counterexample to claim C7 as stated: the fixture attachment carries
an attachment index and a page count but no external document id.  By the
claim's wording it is not skipped (it is not missing both identifiers and
its page count is present), yet the loop skips it: the code requires the
index and the document id to both be present, so the merge affects no
document and leaves the store unchanged. -/
theorem claim_C7_counterexample :
    claimedSkipRule c7Att = false ∧
    attSanityFails c7Att = true ∧
    merge_attachment_page_data (fun _ => false) (fun _ => none) c7Store
      "ca9" false (some "100") "X" none [c7Att] false false
      = .ok (c7Store, [], [], 2) := ⟨by decide, by decide, by rfl⟩

/-- Claim C7 as amended: in the attachment loop of
`merge_attachment_page_data`, an attachment dict is skipped exactly when
it is missing an attachment index or an external document id (one
suffices), or when its page-count key is present with a null value and
its attachment index is not 0; every other attachment dict is processed
(looked up, adopted, created, or used for the in-place promotion) and
contributes exactly one affected row.  Stated for a call resolving its
main document directly against an entry holding only that document. -/
theorem claim_C7_amended (isLong : String → Bool)
    (convertSize : String → Option Nat) (s : Store) (court_id : String)
    (appellate : Bool) (pcid : Option String) (x : String)
    (docnum : Option String) (a : AttachmentDict) (r0 : RECAPDocument)
    (h1 : mainRdFilter s court_id pcid x = [r0])
    (h2 : s.rds.filter (fun r => r.docket_entry == r0.docket_entry)
      = [r0])
    (hwf : (s.rds.map RECAPDocument.pk).Nodup) :
    ∃ s' aff cr,
      merge_attachment_page_data isLong convertSize s court_id appellate
        pcid x docnum [a] false false = .ok (s', aff, cr,
          r0.docket_entry) ∧
      aff.length = (if amendedSkipRule a = true then 0 else 1) := by
  have hr0mem : r0 ∈ s.rds := by
    have : r0 ∈ s.rds.filter
        (fun r => r.docket_entry == r0.docket_entry) := by
      rw [h2]
      exact List.mem_cons_self _ _
    exact (List.mem_filter.mp this).1
  have hres : resolve_main_rd s court_id pcid x [a] false
      = .ok { store := s, main_rd := r0, createdPks := [] } := by
    unfold resolve_main_rd
    simp only [Bool.false_eq_true, if_false]
    rw [h1]
  unfold merge_attachment_page_data
  rw [hres]
  dsimp only
  simp only [Bool.false_eq_true, Bool.not_false, if_false, if_true]
  generalize (match docnum with
    | none => r0.document_number
    | some n => n : String) = dn
  by_cases hskip : amendedSkipRule a = true
  · have hor : attSanityFails a = true ∨ attPageCountSkip a = true := by
      unfold amendedSkipRule at hskip
      unfold attSanityFails attPageCountSkip
      rcases hsan : (a.attachment_number.isSome &&
          optStrTruthy a.pacer_doc_id) with _ | _
      · exact Or.inl rfl
      · refine Or.inr ?_
        rw [Bool.and_eq_true] at hsan
        rw [Bool.or_eq_true] at hskip
        rcases hskip with hl | hr
        · rw [Bool.or_eq_true] at hl
          rcases hl with hl | hl
          · rw [hsan.1] at hl
            cases hl
          · rw [hsan.2] at hl
            cases hl
        · exact hr
    have hp := processAttachment_skip isLong convertSize appellate x
      dn r0.docket_entry
      { store := s, mainPk := r0.pk, main_rd_to_att := false,
        affectedPks := [], createdPks := [] } a hor
    simp only [attLoop_singleton hp]
    refine ⟨_, _, _, rfl, ?_⟩
    rw [if_pos hskip]
    rfl
  · have hns : attSanityFails a = false := by
      rcases hc : attSanityFails a with _ | _
      · rfl
      · refine absurd ?_ hskip
        unfold attSanityFails at hc
        unfold amendedSkipRule
        refine bor_true_left ?_
        rw [Bool.not_eq_true'] at hc
        rw [Bool.and_eq_false_iff] at hc
        rcases hc with hc | hc
        · exact bor_true_left (by simp [hc])
        · exact bor_true_right (by simp [hc])
    have hnp : attPageCountSkip a = false := by
      rcases hc : attPageCountSkip a with _ | _
      · rfl
      · refine absurd ?_ hskip
        unfold amendedSkipRule
        refine bor_true_right ?_
        unfold attPageCountSkip at hc
        exact hc
    have hm : getRd s r0.pk = some r0 := find_pk_of_mem_nodup hr0mem hwf
    have hlen2 : (s.rds.filter
        (fun r => r.docket_entry == r0.docket_entry)).length = 1 := by
      rw [h2]
      rfl
    have himp1 : ∀ r, attParamsMatch r0.docket_entry dn a r = true →
        (r.docket_entry == r0.docket_entry) = true := by
      intro r hr
      unfold attParamsMatch at hr
      rw [Bool.and_eq_true, Bool.and_eq_true, Bool.and_eq_true] at hr
      exact hr.1.1.1
    have hsub1 : (s.rds.filter
        (attParamsMatch r0.docket_entry dn a)).length ≤ 1 :=
      le_trans (List.Sublist.length_le (filter_sublist_of_imp himp1 s.rds))
        (le_of_eq hlen2)
    have himp2 : ∀ r, attDocIdParamsMatch isLong appellate r0.docket_entry
        dn a r = true →
        (r.docket_entry == r0.docket_entry) = true := by
      intro r hr
      unfold attDocIdParamsMatch at hr
      rw [Bool.and_eq_true, Bool.and_eq_true, Bool.and_eq_true] at hr
      exact hr.1.1.1
    have hsub2 : (s.rds.filter (attDocIdParamsMatch isLong appellate
        r0.docket_entry dn a)).length ≤ 1 :=
      le_trans (List.Sublist.length_le (filter_sublist_of_imp himp2 s.rds))
        (le_of_eq hlen2)
    obtain ⟨st', hp, p, haff⟩ := processAttachment_processed isLong
      convertSize appellate x dn r0.docket_entry
      { store := s, mainPk := r0.pk, main_rd_to_att := false,
        affectedPks := [], createdPks := [] } a r0 hns hnp hm hsub1 hsub2
    simp only [attLoop_singleton hp]
    refine ⟨_, _, _, rfl, ?_⟩
    rw [if_neg hskip, haff]
    rfl

/-- Witness for the amended C7: the fixture attachment with index 0 and a
document id is processed and affects exactly one row. -/
theorem claim_C7_witness :
    ∃ s' aff cr,
      merge_attachment_page_data (fun _ => false) (fun _ => none) c7Store
        "ca9" false (some "100") "X" none [c4Att] false false
        = .ok (s', aff, cr, c7MainRd.docket_entry) ∧
      aff.length = (if amendedSkipRule c4Att = true then 0 else 1) :=
  claim_C7_amended (fun _ => false) (fun _ => none) c7Store "ca9" false
    (some "100") "X" none c4Att c7MainRd (by decide) (by decide)
    (by decide)

/-- Claim C10: for every docket, `add_parties_and_attorneys` with an empty
party list returns immediately and leaves the whole party store — in
particular every PartyType and Role row — unchanged: no disassociation
pass runs on empty input. -/
theorem claim_C10 (ctx : PartyCtx) (s : PartyStore) (dPk : Nat) :
    add_parties_and_attorneys ctx s dPk [] = s := rfl

end Mergers
